import Mathlib

/-!
Verification development for a 2D pool/billiards arcade game
(source files: entities.py, Game.py, layout.py, colors.py, particles.py).

The embedding idealizes Python floats as real numbers and models the
pygame geometry helpers (Rect) with exact real arithmetic.  Sound and
text-popup side effects are recorded in append-only event logs; the
purely visual particle objects (random rotation/scale/lifetime) and all
drawing code are outside the model, as are the window, clock and asset
loading.  Faults (Python exceptions such as ZeroDivisionError and
KeyError) are modelled by Option: a none result is a raised exception.
-/

namespace Pool

noncomputable section

open scoped Classical

/-- A 2D vector, as in the source: a pair of coordinates. -/
abbrev Vec : Type := ℝ × ℝ

/-- Modelled from the spec: utils.py is not under src/; spec section 4.1
names the stateless vector helpers.  Componentwise vector addition. -/
def add_vectors (a b : Vec) : Vec := (a.1 + b.1, a.2 + b.2)

/-- Modelled from the spec: componentwise vector subtraction. -/
def sub_vectors (a b : Vec) : Vec := (a.1 - b.1, a.2 - b.2)

/-- Modelled from the spec: scaling of a vector by a scalar. -/
def scale_vector (v : Vec) (s : ℝ) : Vec := (v.1 * s, v.2 * s)

/-- Modelled from the spec: dot product of two vectors. -/
def dot_product (a b : Vec) : ℝ := a.1 * b.1 + a.2 * b.2

/-- Modelled from the spec: squared distance between two points. -/
def square_dist (a b : Vec) : ℝ := (a.1 - b.1) ^ 2 + (a.2 - b.2) ^ 2

/-- Modelled from the spec: vector magnitude. -/
def vector_size (v : Vec) : ℝ := Real.sqrt (v.1 ^ 2 + v.2 ^ 2)

/-- Modelled from the spec: normalize fails soft, returning the zero
vector on zero-length input rather than dividing by zero. -/
def normalize_vector (v : Vec) : Vec :=
  if vector_size v = 0 then (0, 0) else scale_vector v (1 / vector_size v)

/-- Modelled from the spec: setMagnitude(v, m) = normalize(v) * m. -/
def set_mag (v : Vec) (m : ℝ) : Vec := scale_vector (normalize_vector v) m

/-- Modelled from the spec: linear interpolation between two scalars. -/
def lerp (a b t : ℝ) : ℝ := a + (b - a) * t

/-- Strength of friction, px/s^2 (entities.py line 8). -/
def FRICTION : ℝ := 400

/-- Percentage of energy preserved through collisions (entities.py line 9). -/
def COLLISION_ELASTICITY : ℝ := 0.9

/-- The radius of the holes on the board, px (layout.py). -/
def HOLE_R : ℝ := 40

/-- A pygame Rect, idealized with exact real coordinates. -/
structure Rect where
  x : ℝ
  y : ℝ
  w : ℝ
  h : ℝ

/-- Center of a Rect (pygame Rect.center, idealized to exact reals). -/
def Rect.center (r : Rect) : Vec := (r.x + r.w / 2, r.y + r.h / 2)

/-- Pygame Rect.colliderect: overlap test; rects of zero width or height
never collide, and touching edges do not count as overlap. -/
def Rect.overlaps (a b : Rect) : Prop :=
  a.w ≠ 0 ∧ a.h ≠ 0 ∧ b.w ≠ 0 ∧ b.h ≠ 0 ∧
  a.x + a.w > b.x ∧ a.y + a.h > b.y ∧ a.x < b.x + b.w ∧ a.y < b.y + b.h

/-- Pygame Rect.clip: the intersection of two rects, or a zero-size rect
at the first rect's position when they do not overlap. -/
def Rect.clip (a b : Rect) : Rect :=
  if max a.x b.x < min (a.x + a.w) (b.x + b.w) ∧
     max a.y b.y < min (a.y + a.h) (b.y + b.h) then
    ⟨max a.x b.x, max a.y b.y,
     min (a.x + a.w) (b.x + b.w) - max a.x b.x,
     min (a.y + a.h) (b.y + b.h) - max a.y b.y⟩
  else ⟨a.x, a.y, 0, 0⟩

/-- The concrete entity classes of the game: Player, RedBall, BlueBall,
BlackBall, GoldBall and Wall.  The abstract Entity and Ball classes are
never instantiated. -/
inductive EKind where
  | player
  | red
  | blue
  | black
  | gold
  | wall
deriving DecidableEq

/-- The class attribute R for each ball class: Ball.R = 15 for Player,
RedBall and BlueBall; BlackBall.R = 15 * 0.75; GoldBall.R = 15 * 1.5.
Walls have no radius. -/
def classR : EKind → ℝ
  | .black => 15 * 0.75
  | .gold => 15 * 1.5
  | .wall => 0
  | _ => 15

/-- The class attribute SOLID.  Every concrete class of the game either
declares SOLID = True or inherits it from Ball (GoldBall). -/
def isSolid : EKind → Bool := fun _ => true

/-- Is the class a subclass of Ball (isinstance(entity, Ball))? -/
def isBall : EKind → Bool
  | .wall => false
  | _ => true

/-- The animation dict of a Ball.  The source stores only going:False
until start_animation fills the remaining keys; we carry all fields with
zero defaults, which are never read while going is false. -/
structure Anim where
  going : Bool
  time : ℝ
  total_time : ℝ
  startR : ℝ
  endR : ℝ
  current : ℝ
  center : Vec

/-- An entity of the game: the union of the fields used by the concrete
classes.  speed exists only on Player, normals only on Wall (balls set
normals = []). -/
structure Entity where
  kind : EKind
  pos : Vec
  startPos : Vec
  size : Vec
  vel : Vec
  acc : Vec
  friction : ℝ
  mass : ℝ
  radius : ℝ
  toRemove : Bool
  pottedThisShot : Bool
  anim : Anim
  normals : List (Rect × Vec)
  speed : ℝ

/-- Entity.get_rect: pg.Rect(*self.pos, *self.size). -/
def Entity.get_rect (e : Entity) : Rect := ⟨e.pos.1, e.pos.2, e.size.1, e.size.2⟩

/-- Ball.__init__ shared by all ball classes: the argument is the center;
the stored position is the top-left corner, mass 1, radius the class R. -/
def mkBallCore (k : EKind) (c : Vec) : Entity :=
  let r := classR k
  let tl := sub_vectors c (r, r)
  { kind := k, pos := tl, startPos := tl, size := (r * 2, r * 2),
    vel := (0, 0), acc := (0, 0), friction := FRICTION, mass := 1,
    radius := r, toRemove := false, pottedThisShot := false,
    anim := ⟨false, 0, 0, 0, 0, 0, (0, 0)⟩, normals := [], speed := 0 }

/-- RedBall(pos). -/
def mkRedBall (c : Vec) : Entity := mkBallCore .red c

/-- BlueBall(pos). -/
def mkBlueBall (c : Vec) : Entity := mkBallCore .blue c

/-- BlackBall(pos): mass = (BlackBall.R/Ball.R)**2; note the source then
sets start_pos to the constructor argument (the center), unlike
Ball.__init__ which stored the top-left corner. -/
def mkBlackBall (c : Vec) : Entity :=
  { mkBallCore .black c with mass := (15 * 0.75 / 15) ^ 2, startPos := c }

/-- GoldBall(pos): mass = (GoldBall.R/Ball.R)**2; start_pos is the center
as for BlackBall. -/
def mkGoldBall (c : Vec) : Entity :=
  { mkBallCore .gold c with mass := (15 * 1.5 / 15) ^ 2, startPos := c }

/-- Player(pos): a ball with speed = Player.SPEED. -/
def mkPlayer (c : Vec) : Entity := { mkBallCore .player c with speed := 2000 }

/-- Wall(pos, size): mass 0 (immovable), radius 0 (rect collisions), and
the four 5px-deep normal zones along its faces. -/
def mkWall (p s : Vec) : Entity :=
  { kind := .wall, pos := p, startPos := p, size := s, vel := (0, 0),
    acc := (0, 0), friction := FRICTION, mass := 0, radius := 0,
    toRemove := false, pottedThisShot := false,
    anim := ⟨false, 0, 0, 0, 0, 0, (0, 0)⟩,
    normals :=
      [(⟨p.1, p.2, s.1, 5⟩, (0, -1)),
       (⟨p.1, p.2, 5, s.2⟩, (-1, 0)),
       (⟨p.1 + s.1 - 5, p.2, 5, s.2⟩, (1, 0)),
       (⟨p.1, p.2 + s.2 - 5, s.1, 5⟩, (0, 1))],
    speed := 0 }

/-- A junk entity returned by out-of-range list access; every caller in
the model accesses in range. -/
def defEntity : Entity := mkWall (0, 0) (0, 0)

/-- The polled input snapshot for one frame: primary pointer pressed and
pointer position (spec section 6). -/
structure Input where
  pressed : Bool
  mousePos : Vec

/-- The Game state: board size, entity list, pending-addition queue,
holes, score, shot counters and flags, plus append-only event logs for
play_sound and add_particle text popups. -/
structure Game where
  width : ℝ
  height : ℝ
  entities : List Entity
  entsToAdd : List Entity
  holes : List Vec
  score : ℤ
  shotsLeft : ℤ
  shot : Bool
  ballHitThisShot : Bool
  playing : Bool
  sounds : List String
  popups : List String

/-- The entity at index i of the game's list (a Python object reference;
identity of entities is list position). -/
def entAt (g : Game) (i : ℕ) : Entity := g.entities.getD i defEntity

/-- Write back the entity at index i (in-place mutation of the object). -/
def setEnt (g : Game) (i : ℕ) (e : Entity) : Game :=
  { g with entities := g.entities.set i e }

/-- Mutate the entity at index i. -/
def modEnt (g : Game) (i : ℕ) (f : Entity → Entity) : Game :=
  setEnt g i (f (entAt g i))

/-- Game.play_sound, recorded as an event. -/
def playSound (g : Game) (s : String) : Game := { g with sounds := g.sounds ++ [s] }

/-- Game.add_particle of a TextPopup, recorded as its text. -/
def addPopup (g : Game) (t : String) : Game := { g with popups := g.popups ++ [t] }

/-- Game.add_entity: append to the pending queue, merged after the pass. -/
def addEntity (g : Game) (e : Entity) : Game := { g with entsToAdd := g.entsToAdd ++ [e] }

/-- Entity.apply_force: acc += force * (1/mass).  Wall overrides this
with a no-op, discarding the force.  For any other entity with mass 0
the Python division 1/self.mass raises ZeroDivisionError (none). -/
def applyForceE (e : Entity) (f : Vec) : Option Entity :=
  if e.kind = .wall then some e
  else if e.mass = 0 then none
  else some { e with acc := add_vectors e.acc (scale_vector f (1 / e.mass)) }

/-- apply_force on the entity at index i. -/
def applyForceAt (g : Game) (i : ℕ) (f : Vec) : Option Game :=
  (applyForceE (entAt g i) f).map (setEnt g i)

/-- The per-pair collision test of Entity.handle_collisions: circle-circle
when both radii are nonzero, otherwise bounding-box overlap
(entity.get_rect().colliderect(self.get_rect())). -/
def collideTest (self other : Entity) : Prop :=
  if self.radius ≠ 0 ∧ other.radius ≠ 0 then
    square_dist self.get_rect.center other.get_rect.center ≤
      (self.radius + other.radius) ^ 2
  else Rect.overlaps other.get_rect self.get_rect

/-- Normal determination for a detected collision: the first normal zone
of the struck entity that intersects the clip region wins; otherwise the
normalized direction between the two centers. -/
def pickNormal (self other : Entity) : Vec :=
  let clip := (other.get_rect).clip self.get_rect
  match other.normals.find? (fun z => decide (Rect.overlaps clip z.1)) with
  | some z => z.2
  | none => normalize_vector (sub_vectors self.get_rect.center other.get_rect.center)

/-- Entity.handle_collisions: scan all entities, skipping self and
non-solid ones; the collision hook Entity.collide is pass in every
shipped class.  The scan does not stop at the first hit, so the last
colliding entity in list order provides both the normal and the collided
reference. -/
def handleCollisions (i : ℕ) (g : Game) : Option (Vec × ℕ) :=
  let self := entAt g i
  (List.range g.entities.length).foldl
    (fun r j =>
      if j = i then r
      else
        let other := entAt g j
        if isSolid other.kind = false then r
        else if collideTest self other then some (pickNormal self other, j) else r)
    none

/-- The force vector of Entity.update lines 74-75: the normal scaled by
dot(normal, self.vel - entity.vel) * 2 * COLLISION_ELASTICITY / dt. -/
def responseForce (g : Game) (i j : ℕ) (n : Vec) (dt : ℝ) : Vec :=
  scale_vector n
    (dot_product n (sub_vectors (entAt g i).vel (entAt g j).vel) * 2 *
      COLLISION_ELASTICITY / dt)

/-- Entity.update lines 74-84: impulse computation and mass-weighted
split, given the collision normal and the collided entity's index.  A
zero total mass with a nonzero struck mass would be a Python
ZeroDivisionError (none); it is unreachable for game-built entities. -/
def collisionResponse (i j : ℕ) (n : Vec) (dt : ℝ) (g : Game) : Option Game :=
  let e := entAt g i
  let o := entAt g j
  let force := responseForce g i j n dt
  if o.mass = 0 then applyForceAt g i (scale_vector force (-e.mass))
  else if e.mass + o.mass = 0 then none
  else
    (applyForceAt g i (scale_vector force (-e.mass / (e.mass + o.mass)))).bind fun g1 =>
      applyForceAt g1 j (scale_vector force (o.mass / (e.mass + o.mass)))

/-- Entity.update: the base physics step.  A dt of exactly 0 returns
immediately (first-frame guard against division by zero); otherwise
friction is applied, the position tentatively advanced, collisions
detected and resolved with full position rollback, the acceleration
integrated into the velocity, small velocities snapped to zero, and the
acceleration reset. -/
def baseUpdate (i : ℕ) (g : Game) (dt : ℝ) : Option Game :=
  if dt = 0 then some g
  else
    let e := entAt g i
    (applyForceAt g i (set_mag e.vel (-(e.friction * e.mass)))).bind fun g1 =>
      let old_pos := (entAt g1 i).pos
      let g2 := modEnt g1 i fun e => { e with pos := add_vectors e.pos (scale_vector e.vel dt) }
      let g3opt :=
        match handleCollisions i g2 with
        | some (n, j) =>
          collisionResponse i j n dt
            (modEnt (playSound g2 "hit") i fun e => { e with pos := old_pos })
        | none => some g2
      g3opt.bind fun g4 =>
        let g5 := modEnt g4 i fun e => { e with vel := add_vectors e.vel (scale_vector e.acc dt) }
        let g6 := modEnt g5 i fun e =>
          if dot_product e.vel e.vel ≤ 50 then { e with vel := (0, 0) } else e
        some (modEnt g6 i fun e => { e with acc := (0, 0) })

/-- Ball.start_animation(time, start, end): begin the radius animation,
anchored at the ball's current center. -/
def startAnim (time startR endR : ℝ) (e : Entity) : Entity :=
  { e with anim :=
      { going := true, time := 0, current := 0, total_time := time,
        startR := startR, endR := endR,
        center := add_vectors e.pos (e.radius, e.radius) } }

/-- Ball.update_animation: advance the radius animation; at completion
restore the class radius and re-center the position. -/
def updateAnim (dt : ℝ) (e : Entity) : Entity :=
  if e.anim.going then
    let time := e.anim.time + dt
    let t := time / e.anim.total_time
    if t > 1 then
      { e with anim := { e.anim with going := false, time := time },
               radius := classR e.kind,
               pos := sub_vectors e.anim.center (classR e.kind, classR e.kind) }
    else
      { e with anim := { e.anim with time := time, current := lerp e.anim.startR e.anim.endR t },
               pos := sub_vectors e.anim.center
                 (lerp e.anim.startR e.anim.endR t, lerp e.anim.startR e.anim.endR t) }
  else e

/-- Ball.pot, the base behavior (used by RedBall via super().pot()):
score sound, "+1" popup, score += 1, mark potted, mark for removal. -/
def ballPot (i : ℕ) (g : Game) : Game :=
  let g := playSound g "score"
  let g := addPopup g "+1"
  let g := { g with score := g.score + 1 }
  modEnt g i fun e => { e with pottedThisShot := true, toRemove := true }

/-- The pot method of the entity at index i, dispatched by class.
RedBall.pot first checks the entire entity list: if no other RedBall
remains, the clear bonus (+20, "Red Clear!", reset sound) replaces the
per-ball score and the ball is kept (not removed) for the respawn logic.
Walls are never potted (only Ball.update calls pot). -/
def potEntity (i : ℕ) (g : Game) : Game :=
  let e := entAt g i
  match e.kind with
  | .player =>
    let g := playSound g "player_sink"
    modEnt g i fun e => startAnim 0.125 0 e.radius { e with pos := e.startPos }
  | .red =>
    if e.pottedThisShot then g
    else if ∀ j < g.entities.length, (entAt g j).kind = .red → j = i then
      let g := playSound g "reset"
      let g := { g with score := g.score + 20 }
      let g := addPopup g "Red Clear!"
      modEnt g i fun e => { e with vel := (0, 0), pottedThisShot := true }
    else ballPot i g
  | .blue =>
    if e.pottedThisShot then g
    else
      let g := playSound g "score"
      let g := { g with score := g.score + 4 }
      let g := addPopup g "+4"
      modEnt g i fun e => { e with vel := (0, 0), pottedThisShot := true }
  | .black =>
    if e.pottedThisShot then g
    else
      let g := playSound g "score"
      let g := { g with score := max (g.score - 5) 0 }
      let g := addPopup g "-5"
      modEnt g i fun e => { e with vel := (0, 0), pottedThisShot := true }
  | .gold =>
    if e.pottedThisShot then g
    else
      let g := playSound g "score"
      let g := { g with score := g.score + 7 }
      let g := addPopup g "+7"
      modEnt g i fun e => { e with vel := (0, 0), pottedThisShot := true }
  | .wall => g

/-- One iteration of the hole loop in Ball.update: pot when the hole is
within (self.R + HOLE_R)^2 of the ball center (self.pos + radius). -/
def holeStep (i : ℕ) (g : Game) (hole : Vec) : Game :=
  let e := entAt g i
  if square_dist (add_vectors e.pos (e.radius, e.radius)) hole ≤
      (classR e.kind + HOLE_R) ^ 2 then
    potEntity i g
  else g

/-- Ball.update after the base physics step: pot on every hole whose
center is within (self.R + HOLE_R)^2 of the ball center (the loop
re-reads the mutated ball each iteration), then advance the animation. -/
def ballUpdate (i : ℕ) (g : Game) (dt : ℝ) : Option Game :=
  (baseUpdate i g dt).map fun g1 =>
    modEnt (g1.holes.foldl (holeStep i) g1) i (updateAnim dt)

/-- Game.start_shot. -/
def startShot (g : Game) : Game := { g with shot := true, ballHitThisShot := false }

/-- Game.end_shot: clear the shot flag, decrement shots_left, and end the
game loop when no shots remain. -/
def endShot (g : Game) : Game :=
  let g := { g with shot := false, shotsLeft := g.shotsLeft - 1 }
  if g.shotsLeft ≤ 0 then { g with playing := false } else g

/-- The normalized red-ball start positions of LAYOUT: indices 0,2,4,6,8
of the ten points on the circle of radius 0.25 around the board center
(layout.py's construction loop, even indices). -/
def layoutBallPos (i : ℕ) : Vec :=
  (Real.cos (((i : ℝ) / 10) * Real.pi * 2) * 0.25 + 0.5,
   Real.sin (((i : ℝ) / 10) * Real.pi * 2) * 0.25 * 1200 / 800 + 0.5)

/-- LAYOUT["red-balls"]. -/
def redBallsLayout : List Vec :=
  ((List.range 10).filter (fun i => i % 2 = 0)).map layoutBallPos

/-- LAYOUT["blue-balls"]. -/
def blueBallsLayout : List Vec :=
  ((List.range 10).filter (fun i => ¬ i % 2 = 0)).map layoutBallPos

/-- LAYOUT["holes"]: the eight holes inset by hole_dep = (5/1200, 5/800). -/
def holesLayout : List Vec :=
  [(5 / 1200, 5 / 800), (0.5, -(5 / 800)), (1 - 5 / 1200, 5 / 800),
   (-(5 / 1200), 0.5), (1 + 5 / 1200, 0.5),
   (5 / 1200, 1 - 5 / 800), (0.5, 1 + 5 / 800), (1 - 5 / 1200, 1 - 5 / 800)]

/-- A value of the LAYOUT dict: a single normalized point or a list. -/
inductive LItem where
  | pt (p : Vec)
  | pts (l : List Vec)

/-- The LAYOUT dict of layout.py; a lookup of a missing key is a Python
KeyError, hence none.  The shipped dict defines exactly the keys
red-balls, blue-balls, player, holes, score and shot_count. -/
def LAYOUT : String → Option LItem := fun k =>
  if k = "red-balls" then some (.pts redBallsLayout)
  else if k = "blue-balls" then some (.pts blueBallsLayout)
  else if k = "player" then some (.pt (0.5, 0.5))
  else if k = "holes" then some (.pts holesLayout)
  else if k = "score" then some (.pt (0.75, 20 / 800))
  else if k = "shot_count" then some (.pt (0.25, 20 / 800))
  else none

/-- Game.generate_walls: four walls of thickness 10 around the board. -/
def boardWalls (w h : ℝ) : List Entity :=
  [mkWall (0, -10) (w, 10), mkWall (-10, 0) (10, h),
   mkWall (0, h) (w, 10), mkWall (w, 0) (10, h)]

/-- Game.reset: build the holes, the player, the red and blue balls, then
the black and gold balls, then the walls; a missing LAYOUT key while
building the entity list is a KeyError, aborting the reset. -/
def reset (w h : ℝ) : Option Game :=
  match LAYOUT "holes", LAYOUT "player", LAYOUT "red-balls",
        LAYOUT "blue-balls", LAYOUT "black-ball", LAYOUT "gold-ball" with
  | some (.pts hl), some (.pt pp), some (.pts reds), some (.pts blues),
    some (.pt bp), some (.pt gp) =>
    some
      { width := w, height := h,
        entities :=
          mkPlayer (w * pp.1, h * pp.2) ::
            (reds.map (fun p => mkRedBall (p.1 * w, p.2 * h)) ++
             blues.map (fun p => mkBlueBall (p.1 * w, p.2 * h)) ++
             [mkBlackBall (w * bp.1, h * bp.2), mkGoldBall (w * gp.1, h * gp.2)] ++
             boardWalls w h),
        entsToAdd := [], holes := hl.map (fun p => (p.1 * w, p.2 * h)),
        score := 0, shotsLeft := 30, shot := false,
        ballHitThisShot := false, playing := true, sounds := [], popups := [] }
  | _, _, _, _, _, _ => none

/-- Player.update before the base step: on pointer press start the shot
if none is active and, while speed remains positive, aim the
acceleration at the pointer with magnitude speed, decaying the speed;
on release outside a shot restore the full speed. -/
def playerUpdate (inp : Input) (i : ℕ) (g : Game) (dt : ℝ) : Option Game :=
  if inp.pressed then
    let g := if g.shot = false then startShot g else g
    let g :=
      if (entAt g i).speed > 0 then
        modEnt g i fun e =>
          { e with acc := set_mag (sub_vectors inp.mousePos e.pos) e.speed,
                   speed := e.speed - 1000 * dt }
      else g
    ballUpdate i g dt
  else
    let g := if g.shot = false then modEnt g i fun e => { e with speed := 2000 } else g
    ballUpdate i g dt

/-- The respawn entities queued by a cleared RedBall: one fresh RedBall
per LAYOUT["red-balls"] position, each started on its grow animation
(the same object is queued and then mutated). -/
def redRespawns (w h : ℝ) : List Entity :=
  redBallsLayout.map fun p => startAnim 0.125 0 15 (mkRedBall (p.1 * w, p.2 * h))

/-- The update method of the entity at index i, dispatched Python-style
by class: Wall.update is pass; the potted branches of the scoring balls
either wait out the shot, respawn (blue/black/gold un-pot and fall
through to the physics step), or for RedBall queue the five respawns and
remove themselves. -/
def entityUpdate (inp : Input) (i : ℕ) (g : Game) (dt : ℝ) : Option Game :=
  match (entAt g i).kind with
  | .wall => some g
  | .player => playerUpdate inp i g dt
  | .red =>
    if (entAt g i).pottedThisShot then
      if g.shot = false then
        let g := (redRespawns g.width g.height).foldl addEntity g
        some (modEnt g i fun e => { e with toRemove := true })
      else some g
    else ballUpdate i g dt
  | _ =>
    if (entAt g i).pottedThisShot then
      if g.shot = false then
        let g := modEnt g i fun e =>
          startAnim 0.125 0 (classR e.kind) { e with pottedThisShot := false, pos := e.startPos }
        ballUpdate i g dt
      else some g
    else ballUpdate i g dt

/-- The entity loop of Game.update: update each entity in place, record
whether any ball still moves (vector_size(vel) != 0 right after its own
update) and whether each entity survives the removal filter. -/
def passLoop (inp : Input) (dt : ℝ) :
    List ℕ → Game × Bool × List Bool → Option (Game × Bool × List Bool)
  | [], st => some st
  | i :: rest, (g, mov, keep) =>
    (entityUpdate inp i g dt).bind fun g1 =>
      let e := entAt g1 i
      passLoop inp dt rest
        (g1, mov || (isBall e.kind && decide (vector_size e.vel ≠ 0)),
         keep ++ [!e.toRemove])

/-- Keep exactly the entities whose recorded keep flag is true (the
new_entities filtering of Game.update). -/
def filterByKeep : List Entity → List Bool → List Entity
  | [], _ => []
  | _, [] => []
  | e :: es, b :: bs => if b then e :: filterByKeep es bs else filterByKeep es bs

/-- The update pass of Game.update: run the entity loop over the current
list, filter out the entities marked for removal, then merge the
pending additions.  Returns the new state and the ball_moving flag.
The particle pass (lifetime bookkeeping of the visual popups) is outside
the model. -/
def gamePass (inp : Input) (g : Game) (dt : ℝ) : Option (Game × Bool) :=
  (passLoop inp dt (List.range g.entities.length) (g, false, [])).map fun st =>
    ({ st.1 with entities := filterByKeep st.1.entities st.2.2 ++ st.1.entsToAdd,
                 entsToAdd := [] }, st.2.1)

/-- Game.update: the entity pass, then end the shot exactly when a shot
is active, no ball is moving and the primary pointer is released. -/
def gameUpdate (inp : Input) (g : Game) (dt : ℝ) : Option Game :=
  (gamePass inp g dt).map fun p =>
    if p.1.shot && !p.2 && !inp.pressed then endShot p.1 else p.1

/-! ### Basic lemmas about the embedding -/

lemma getD_set_self (l : List Entity) : ∀ (i : ℕ) (e : Entity),
    i < l.length → (l.set i e).getD i defEntity = e := by
  induction l with
  | nil => intro i e h; simp at h
  | cons a t ih =>
    intro i e h
    cases i with
    | zero => rfl
    | succ n =>
      have : n < t.length := by simpa using h
      simpa [List.getD] using ih n e this

lemma getD_set_ne (l : List Entity) : ∀ (i j : ℕ) (e : Entity),
    j ≠ i → (l.set i e).getD j defEntity = l.getD j defEntity := by
  induction l with
  | nil => intro i j e _; rfl
  | cons a t ih =>
    intro i j e hne
    cases i with
    | zero =>
      cases j with
      | zero => exact absurd rfl hne
      | succ m => rfl
    | succ n =>
      cases j with
      | zero => rfl
      | succ m =>
        have : m ≠ n := fun hc => hne (by simp [hc])
        simpa [List.getD] using ih n m e this

lemma set_getD_self (l : List Entity) : ∀ i : ℕ, l.set i (l.getD i defEntity) = l := by
  induction l with
  | nil => intro i; rfl
  | cons a t ih =>
    intro i
    cases i with
    | zero => rfl
    | succ n => show a :: t.set n (t.getD n defEntity) = a :: t; rw [ih n]

@[simp] lemma setEnt_width (g : Game) (i : ℕ) (e : Entity) : (setEnt g i e).width = g.width := rfl

@[simp] lemma setEnt_height (g : Game) (i : ℕ) (e : Entity) : (setEnt g i e).height = g.height := rfl

@[simp] lemma setEnt_score (g : Game) (i : ℕ) (e : Entity) : (setEnt g i e).score = g.score := rfl

@[simp] lemma setEnt_shotsLeft (g : Game) (i : ℕ) (e : Entity) : (setEnt g i e).shotsLeft = g.shotsLeft := rfl

@[simp] lemma setEnt_shot (g : Game) (i : ℕ) (e : Entity) : (setEnt g i e).shot = g.shot := rfl

@[simp] lemma setEnt_holes (g : Game) (i : ℕ) (e : Entity) : (setEnt g i e).holes = g.holes := rfl

@[simp] lemma setEnt_sounds (g : Game) (i : ℕ) (e : Entity) : (setEnt g i e).sounds = g.sounds := rfl

@[simp] lemma setEnt_popups (g : Game) (i : ℕ) (e : Entity) : (setEnt g i e).popups = g.popups := rfl

@[simp] lemma setEnt_entsToAdd (g : Game) (i : ℕ) (e : Entity) : (setEnt g i e).entsToAdd = g.entsToAdd := rfl

@[simp] lemma setEnt_playing (g : Game) (i : ℕ) (e : Entity) : (setEnt g i e).playing = g.playing := rfl

@[simp] lemma setEnt_ballHit (g : Game) (i : ℕ) (e : Entity) : (setEnt g i e).ballHitThisShot = g.ballHitThisShot := rfl

@[simp] lemma setEnt_length (g : Game) (i : ℕ) (e : Entity) :
    (setEnt g i e).entities.length = g.entities.length := by
  simp [setEnt]

lemma entAt_setEnt_self (g : Game) (i : ℕ) (e : Entity) (h : i < g.entities.length) :
    entAt (setEnt g i e) i = e :=
  getD_set_self g.entities i e h

lemma entAt_setEnt_ne (g : Game) (i j : ℕ) (e : Entity) (h : j ≠ i) :
    entAt (setEnt g i e) j = entAt g j :=
  getD_set_ne g.entities i j e h

lemma setEnt_entAt (g : Game) (i : ℕ) : setEnt g i (entAt g i) = g := by
  show { g with entities := g.entities.set i (g.entities.getD i defEntity) } = g
  rw [set_getD_self]

lemma modEnt_id (g : Game) (i : ℕ) (f : Entity → Entity)
    (h : f (entAt g i) = entAt g i) : modEnt g i f = g := by
  unfold modEnt
  rw [h, setEnt_entAt]

@[simp] lemma modEnt_score (g : Game) (i : ℕ) (f : Entity → Entity) :
    (modEnt g i f).score = g.score := rfl

@[simp] lemma modEnt_shot (g : Game) (i : ℕ) (f : Entity → Entity) :
    (modEnt g i f).shot = g.shot := rfl

@[simp] lemma modEnt_shotsLeft (g : Game) (i : ℕ) (f : Entity → Entity) :
    (modEnt g i f).shotsLeft = g.shotsLeft := rfl

@[simp] lemma modEnt_holes (g : Game) (i : ℕ) (f : Entity → Entity) :
    (modEnt g i f).holes = g.holes := rfl

@[simp] lemma modEnt_entsToAdd (g : Game) (i : ℕ) (f : Entity → Entity) :
    (modEnt g i f).entsToAdd = g.entsToAdd := rfl

@[simp] lemma modEnt_length (g : Game) (i : ℕ) (f : Entity → Entity) :
    (modEnt g i f).entities.length = g.entities.length := by
  simp [modEnt]

lemma entAt_modEnt_self (g : Game) (i : ℕ) (f : Entity → Entity) (h : i < g.entities.length) :
    entAt (modEnt g i f) i = f (entAt g i) := entAt_setEnt_self _ _ _ h

lemma entAt_modEnt_ne (g : Game) (i j : ℕ) (f : Entity → Entity) (h : j ≠ i) :
    entAt (modEnt g i f) j = entAt g j := entAt_setEnt_ne _ _ _ _ h

@[simp] lemma playSound_score (g : Game) (s : String) : (playSound g s).score = g.score := rfl

@[simp] lemma playSound_entities (g : Game) (s : String) : (playSound g s).entities = g.entities := rfl

@[simp] lemma playSound_shot (g : Game) (s : String) : (playSound g s).shot = g.shot := rfl

@[simp] lemma playSound_shotsLeft (g : Game) (s : String) : (playSound g s).shotsLeft = g.shotsLeft := rfl

@[simp] lemma playSound_holes (g : Game) (s : String) : (playSound g s).holes = g.holes := rfl

@[simp] lemma playSound_entsToAdd (g : Game) (s : String) : (playSound g s).entsToAdd = g.entsToAdd := rfl

@[simp] lemma addPopup_score (g : Game) (t : String) : (addPopup g t).score = g.score := rfl

@[simp] lemma addPopup_entities (g : Game) (t : String) : (addPopup g t).entities = g.entities := rfl

@[simp] lemma addPopup_shot (g : Game) (t : String) : (addPopup g t).shot = g.shot := rfl

@[simp] lemma addPopup_entsToAdd (g : Game) (t : String) : (addPopup g t).entsToAdd = g.entsToAdd := rfl

@[simp] lemma addEntity_score (g : Game) (e : Entity) : (addEntity g e).score = g.score := rfl

@[simp] lemma addEntity_entities (g : Game) (e : Entity) : (addEntity g e).entities = g.entities := rfl

@[simp] lemma playSound_sounds (g : Game) (s : String) : (playSound g s).sounds = g.sounds ++ [s] := rfl

@[simp] lemma addPopup_popups (g : Game) (t : String) : (addPopup g t).popups = g.popups ++ [t] := rfl

@[simp] lemma playSound_popups (g : Game) (s : String) : (playSound g s).popups = g.popups := rfl

@[simp] lemma addPopup_sounds (g : Game) (t : String) : (addPopup g t).sounds = g.sounds := rfl

@[simp] lemma entAt_playSound (g : Game) (s : String) (i : ℕ) : entAt (playSound g s) i = entAt g i := rfl

@[simp] lemma entAt_addPopup (g : Game) (t : String) (i : ℕ) : entAt (addPopup g t) i = entAt g i := rfl

@[simp] lemma entAt_addEntity (g : Game) (e : Entity) (i : ℕ) : entAt (addEntity g e) i = entAt g i := rfl

lemma applyForceE_some {e : Entity} {f : Vec} {e' : Entity}
    (h : applyForceE e f = some e') : ∃ a, e' = { e with acc := a } := by
  unfold applyForceE at h
  by_cases hk : e.kind = .wall
  · rw [if_pos hk] at h
    exact ⟨e.acc, (Option.some.inj h).symm⟩
  · rw [if_neg hk] at h
    by_cases hm : e.mass = 0
    · rw [if_pos hm] at h; cases h
    · rw [if_neg hm] at h
      exact ⟨_, (Option.some.inj h).symm⟩

lemma applyForceAt_some {g : Game} {i : ℕ} {f : Vec} {g' : Game}
    (h : applyForceAt g i f = some g') :
    ∃ a, g' = setEnt g i { entAt g i with acc := a } := by
  unfold applyForceAt at h
  rcases he : applyForceE (entAt g i) f with _ | e' <;> rw [he] at h
  · cases h
  · obtain ⟨a, ha⟩ := applyForceE_some he
    refine ⟨a, ?_⟩
    have hg : setEnt g i e' = g' := Option.some.inj h
    rw [← hg, ha]

@[simp] lemma classR_player : classR .player = 15 := rfl

@[simp] lemma classR_red : classR .red = 15 := rfl

@[simp] lemma classR_blue : classR .blue = 15 := rfl

@[simp] lemma classR_black : classR .black = 15 * 0.75 := rfl

@[simp] lemma classR_gold : classR .gold = 15 * 1.5 := rfl

@[simp] lemma classR_wall : classR .wall = 0 := rfl

@[simp] lemma isSolid_true (k : EKind) : isSolid k = true := rfl

@[simp] lemma mkBallCore_kind (k : EKind) (c : Vec) : (mkBallCore k c).kind = k := rfl

@[simp] lemma mkBallCore_radius (k : EKind) (c : Vec) : (mkBallCore k c).radius = classR k := rfl

@[simp] lemma mkBallCore_pos (k : EKind) (c : Vec) :
    (mkBallCore k c).pos = sub_vectors c (classR k, classR k) := rfl

@[simp] lemma mkBallCore_size (k : EKind) (c : Vec) :
    (mkBallCore k c).size = (classR k * 2, classR k * 2) := rfl

@[simp] lemma mkBallCore_vel (k : EKind) (c : Vec) : (mkBallCore k c).vel = (0, 0) := rfl

@[simp] lemma mkBallCore_acc (k : EKind) (c : Vec) : (mkBallCore k c).acc = (0, 0) := rfl

@[simp] lemma mkBallCore_mass (k : EKind) (c : Vec) : (mkBallCore k c).mass = 1 := rfl

@[simp] lemma mkBallCore_friction (k : EKind) (c : Vec) : (mkBallCore k c).friction = FRICTION := rfl

@[simp] lemma mkBallCore_toRemove (k : EKind) (c : Vec) : (mkBallCore k c).toRemove = false := rfl

@[simp] lemma mkBallCore_potted (k : EKind) (c : Vec) : (mkBallCore k c).pottedThisShot = false := rfl

@[simp] lemma mkBallCore_anim (k : EKind) (c : Vec) :
    (mkBallCore k c).anim = ⟨false, 0, 0, 0, 0, 0, (0, 0)⟩ := rfl

@[simp] lemma mkBallCore_normals (k : EKind) (c : Vec) : (mkBallCore k c).normals = [] := rfl

/-! ### C1: mass-0 entities discard forces -/

/-- A concrete one-wall game used to witness C1. -/
def gW : Game :=
  { width := 1200, height := 800, entities := [mkWall (0, 0) (100, 10)],
    entsToAdd := [], holes := [], score := 0, shotsLeft := 30, shot := false,
    ballHitThisShot := false, playing := true, sounds := [], popups := [] }

/-- C1: every entity the game constructs with mass 0 is a Wall (the ball
and player constructors all produce nonzero mass), Wall.apply_force
discards any force without touching acceleration or velocity and without
a division-by-zero fault, and a full Wall.update (which is what applies
friction and collision forces for other classes) is pass: it returns the
game unchanged, for any dt. -/
theorem C1_mass_zero_force_discarded (p s c f : Vec) (g : Game) (i : ℕ)
    (inp : Input) (dt : ℝ) :
    (mkWall p s).mass = 0 ∧
    ((mkPlayer c).mass ≠ 0 ∧ (mkRedBall c).mass ≠ 0 ∧ (mkBlueBall c).mass ≠ 0 ∧
      (mkBlackBall c).mass ≠ 0 ∧ (mkGoldBall c).mass ≠ 0) ∧
    (∀ e : Entity, e.kind = .wall → applyForceE e f = some e) ∧
    ((entAt g i).kind = .wall → entityUpdate inp i g dt = some g) := by
  refine ⟨rfl, ⟨?_, ?_, ?_, ?_, ?_⟩, ?_, ?_⟩
  · show (1 : ℝ) ≠ 0; norm_num
  · show (1 : ℝ) ≠ 0; norm_num
  · show (1 : ℝ) ≠ 0; norm_num
  · show ((15 * 0.75 / 15 : ℝ)) ^ 2 ≠ 0; norm_num
  · show ((15 * 1.5 / 15 : ℝ)) ^ 2 ≠ 0; norm_num
  · intro e hk
    unfold applyForceE
    rw [if_pos hk]
  · intro hk
    unfold entityUpdate
    rw [hk]

/-- Witness for C1 at a concrete wall and force. -/
theorem C1_witness :
    applyForceE (mkWall (0, 0) (100, 10)) (3, 4) = some (mkWall (0, 0) (100, 10)) ∧
    entityUpdate ⟨false, (0, 0)⟩ 0 gW 1 = some gW := by
  have h := C1_mass_zero_force_discarded (0, 0) (100, 10) (50, 50) (3, 4) gW 0
    ⟨false, (0, 0)⟩ 1
  exact ⟨h.2.2.1 _ rfl, h.2.2.2 rfl⟩

/-! ### C10: reset reads LAYOUT keys that do not exist -/

/-- C10: the shipped LAYOUT defines neither "black-ball" nor "gold-ball"
(while the keys reset reads before them all exist), so Game.reset hits a
KeyError while building the entity list for every board size and never
returns a playable state. -/
theorem C10_reset_raises_keyerror :
    (LAYOUT "black-ball" = none ∧ LAYOUT "gold-ball" = none) ∧
    ((LAYOUT "holes").isSome = true ∧ (LAYOUT "player").isSome = true ∧
      (LAYOUT "red-balls").isSome = true ∧ (LAYOUT "blue-balls").isSome = true) ∧
    ∀ w h : ℝ, reset w h = none := by
  refine ⟨⟨rfl, rfl⟩, ⟨rfl, rfl, rfl, rfl⟩, fun w h => rfl⟩

/-! ### C9: the circle-circle collision test -/

/-- A two-ball game with the centers a horizontal distance d apart. -/
def ballPairG (d : ℝ) : Game :=
  { width := 1200, height := 800,
    entities := [mkRedBall (100, 100), mkRedBall (100 + d, 100)],
    entsToAdd := [], holes := [], score := 0, shotsLeft := 30, shot := false,
    ballHitThisShot := false, playing := true, sounds := [], popups := [] }

lemma handleCollisions_pair (e1 e2 : Entity) (g : Game) (hg : g.entities = [e1, e2])
    (h1 : e1.radius ≠ 0) (h2 : e2.radius ≠ 0) :
    handleCollisions 0 g =
      if square_dist e1.get_rect.center e2.get_rect.center ≤ (e1.radius + e2.radius) ^ 2
      then some (pickNormal e1 e2, 1) else none := by
  have he1 : entAt g 0 = e1 := by show g.entities.getD 0 defEntity = e1; rw [hg]; rfl
  have he2 : entAt g 1 = e2 := by show g.entities.getD 1 defEntity = e2; rw [hg]; rfl
  have hlen : g.entities.length = 2 := by rw [hg]; rfl
  have hr : List.range 2 = [0, 1] := rfl
  have hct : collideTest e1 e2 =
      (square_dist e1.get_rect.center e2.get_rect.center ≤ (e1.radius + e2.radius) ^ 2) := by
    unfold collideTest
    rw [if_pos ⟨h1, h2⟩]
  unfold handleCollisions
  rw [hlen, hr]
  simp only [List.foldl_cons, List.foldl_nil]
  show (if collideTest (entAt g 0) (entAt g 1)
      then some (pickNormal (entAt g 0) (entAt g 1), 1) else none) = _
  rw [he1, he2, hct]

/-- C9: for two entities with nonzero radii the collision scan registers
a collision exactly when the squared center distance is at most the
squared radius sum; concretely, two radius-15 balls whose centers are 30
apart collide, and at 30.01 apart they do not. -/
theorem C9_circle_collision_test :
    (∀ (e1 e2 : Entity) (g : Game), g.entities = [e1, e2] →
      e1.radius ≠ 0 → e2.radius ≠ 0 →
      ((handleCollisions 0 g).isSome = true ↔
        square_dist e1.get_rect.center e2.get_rect.center ≤ (e1.radius + e2.radius) ^ 2)) ∧
    (handleCollisions 0 (ballPairG 30)).isSome = true ∧
    handleCollisions 0 (ballPairG 30.01) = none := by
  have key : ∀ (e1 e2 : Entity) (g : Game), g.entities = [e1, e2] →
      e1.radius ≠ 0 → e2.radius ≠ 0 →
      ((handleCollisions 0 g).isSome = true ↔
        square_dist e1.get_rect.center e2.get_rect.center ≤ (e1.radius + e2.radius) ^ 2) := by
    intro e1 e2 g hg h1 h2
    rw [handleCollisions_pair e1 e2 g hg h1 h2]
    by_cases hc : square_dist e1.get_rect.center e2.get_rect.center ≤ (e1.radius + e2.radius) ^ 2
    · rw [if_pos hc]; simpa using hc
    · rw [if_neg hc]; simpa using hc
  have hrad : ∀ c : Vec, (mkRedBall c).radius ≠ 0 := by
    intro c; show (15 : ℝ) ≠ 0; norm_num
  refine ⟨key, ?_, ?_⟩
  · rw [key (mkRedBall (100, 100)) (mkRedBall (130, 100)) (ballPairG 30)
      (by norm_num [ballPairG]) (hrad _) (hrad _)]
    norm_num [square_dist, Entity.get_rect, Rect.center, mkRedBall, sub_vectors]
  · rw [handleCollisions_pair (mkRedBall (100, 100)) (mkRedBall (130.01, 100))
      (ballPairG 30.01) (by norm_num [ballPairG]) (hrad _) (hrad _)]
    rw [if_neg]
    norm_num [square_dist, Entity.get_rect, Rect.center, mkRedBall, sub_vectors]

/-- Witness for C9 at two further concrete balls (centers 40 apart). -/
theorem C9_witness :
    (handleCollisions 0 (ballPairG 40)).isSome = true ↔
      square_dist (mkRedBall (100, 100)).get_rect.center
          (mkRedBall (140, 100)).get_rect.center ≤
        ((mkRedBall (100, 100)).radius + (mkRedBall (140, 100)).radius) ^ 2 :=
  C9_circle_collision_test.1 (mkRedBall (100, 100)) (mkRedBall (140, 100))
    (ballPairG 40) (by norm_num [ballPairG])
    (by show (15 : ℝ) ≠ 0; norm_num) (by show (15 : ℝ) ≠ 0; norm_num)

/-! ### Equation lemmas for the update functions -/

lemma baseUpdate_zero (i : ℕ) (g : Game) : baseUpdate i g 0 = some g := by
  unfold baseUpdate
  rw [if_pos rfl]

lemma ballUpdate_some (i : ℕ) (g g1 : Game) (dt : ℝ) (h : baseUpdate i g dt = some g1) :
    ballUpdate i g dt =
      some (modEnt (g1.holes.foldl (holeStep i) g1) i (updateAnim dt)) := by
  unfold ballUpdate
  rw [h]
  rfl

lemma holeStep_id (i : ℕ) (g : Game) (hole : Vec)
    (h : ¬ square_dist (add_vectors (entAt g i).pos ((entAt g i).radius, (entAt g i).radius))
        hole ≤ (classR (entAt g i).kind + HOLE_R) ^ 2) :
    holeStep i g hole = g := by
  simp only [holeStep]
  rw [if_neg h]

lemma holesFold_id (i : ℕ) : ∀ (hs : List Vec) (g : Game),
    (∀ hole ∈ hs,
      ¬ square_dist (add_vectors (entAt g i).pos ((entAt g i).radius, (entAt g i).radius))
        hole ≤ (classR (entAt g i).kind + HOLE_R) ^ 2) →
    hs.foldl (holeStep i) g = g := by
  intro hs
  induction hs with
  | nil => intro g _; rfl
  | cons a t ih =>
    intro g h
    rw [List.foldl_cons, holeStep_id i g a (h a (List.mem_cons_self a t))]
    exact ih g (fun hole hm => h hole (List.mem_cons_of_mem a hm))

lemma updateAnim_id (dt : ℝ) (e : Entity) (h : e.anim.going = false) :
    updateAnim dt e = e := by
  unfold updateAnim
  rw [h]
  rfl

lemma entityUpdate_wall (inp : Input) (i : ℕ) (g : Game) (dt : ℝ)
    (h : (entAt g i).kind = .wall) : entityUpdate inp i g dt = some g := by
  unfold entityUpdate
  rw [h]

lemma entityUpdate_ball (inp : Input) (i : ℕ) (g : Game) (dt : ℝ)
    (hkp : (entAt g i).kind ≠ .player) (hkw : (entAt g i).kind ≠ .wall)
    (hp : (entAt g i).pottedThisShot = false) :
    entityUpdate inp i g dt = ballUpdate i g dt := by
  unfold entityUpdate
  cases hkind : (entAt g i).kind
  case player => exact absurd hkind hkp
  case wall => exact absurd hkind hkw
  all_goals simp [hp]

lemma potEntity_red_clear (i : ℕ) (g : Game)
    (hk : (entAt g i).kind = .red) (hp : (entAt g i).pottedThisShot = false)
    (hall : ∀ j < g.entities.length, (entAt g j).kind = .red → j = i) :
    potEntity i g =
      modEnt (addPopup { g with sounds := g.sounds ++ ["reset"], score := g.score + 20 }
          "Red Clear!") i
        (fun e => { e with vel := (0, 0), pottedThisShot := true }) := by
  simp only [potEntity, hk, hp]
  rw [if_pos hall]
  rfl

lemma potEntity_red_normal (i : ℕ) (g : Game)
    (hk : (entAt g i).kind = .red) (hp : (entAt g i).pottedThisShot = false)
    (hnall : ¬ ∀ j < g.entities.length, (entAt g j).kind = .red → j = i) :
    potEntity i g = ballPot i g := by
  simp only [potEntity, hk, hp]
  rw [if_neg hnall]
  rfl

/-! ### C3: dt = 0 -/

/-- A game with a single red ball sitting exactly on a hole, used to
refute the claim that a dt of 0 is a complete no-op. -/
def gC3 : Game :=
  { width := 1200, height := 800, entities := [mkRedBall (100, 100)],
    entsToAdd := [], holes := [(100, 100)], score := 0, shotsLeft := 30,
    shot := true, ballHitThisShot := false, playing := true, sounds := [],
    popups := [] }

/-- Counterexample to C3 as stated: updating a ball that overlaps a hole
with dt exactly 0 is not a no-op — the hole-pot check still runs after
the skipped physics step, and the score changes (here from 0 to 20). -/
theorem C3_counterexample_dt_zero_pots :
    Option.map Game.score (entityUpdate ⟨false, (0, 0)⟩ 0 gC3 0) = some 20 ∧
    gC3.score = 0 := by
  constructor
  · have hk : (entAt gC3 0).kind = .red := rfl
    have hp : (entAt gC3 0).pottedThisShot = false := rfl
    have hkp : (entAt gC3 0).kind ≠ .player := by rw [hk]; decide
    have hkw : (entAt gC3 0).kind ≠ .wall := by rw [hk]; decide
    rw [entityUpdate_ball _ 0 gC3 0 hkp hkw hp,
      ballUpdate_some 0 gC3 gC3 0 (baseUpdate_zero 0 gC3)]
    have hc : square_dist
        (add_vectors (entAt gC3 0).pos ((entAt gC3 0).radius, (entAt gC3 0).radius))
        (100, 100) ≤ (classR (entAt gC3 0).kind + HOLE_R) ^ 2 := by
      rw [show entAt gC3 0 = mkRedBall (100, 100) from rfl]
      norm_num [square_dist, add_vectors, sub_vectors, mkRedBall, HOLE_R]
    have hfold : gC3.holes.foldl (holeStep 0) gC3 = potEntity 0 gC3 := by
      rw [show gC3.holes = [(100, 100)] from rfl, List.foldl_cons, List.foldl_nil]
      simp only [holeStep]
      rw [if_pos hc]
    rw [hfold]
    have hall : ∀ j < gC3.entities.length, (entAt gC3 j).kind = .red → j = 0 := by
      have hl : gC3.entities.length = 1 := rfl
      rw [hl]
      omega
    rw [potEntity_red_clear 0 gC3 hk hp hall]
    simp only [Option.map_some', modEnt_score, addPopup_score]
    norm_num [gC3]
  · rfl

/-- C3 amended: a dt of exactly 0 skips only the base physics step
(Entity.update returns immediately, so friction, movement, collisions,
velocity integration and the snap are all skipped), but the ball-specific
code around it still runs: the hole-pot check, the animation step, the
respawn branches and the player input handling.  Hence dt = 0 leaves a
non-player entity and the whole game unchanged provided the entity is
not marked potted-this-shot, its radius animation is not running, and
its center is not within pot range of any hole. -/
theorem C3_amended_dt_zero (inp : Input) (g : Game) (i : ℕ)
    (hkp : (entAt g i).kind ≠ .player)
    (hp : (entAt g i).pottedThisShot = false)
    (ha : (entAt g i).anim.going = false)
    (hh : ∀ hole ∈ g.holes,
      ¬ square_dist (add_vectors (entAt g i).pos ((entAt g i).radius, (entAt g i).radius))
        hole ≤ (classR (entAt g i).kind + HOLE_R) ^ 2) :
    entityUpdate inp i g 0 = some g := by
  by_cases hw : (entAt g i).kind = .wall
  · exact entityUpdate_wall inp i g 0 hw
  · rw [entityUpdate_ball inp i g 0 hkp hw hp,
      ballUpdate_some i g g 0 (baseUpdate_zero i g),
      holesFold_id i g.holes g hh,
      modEnt_id g i (updateAnim 0) (updateAnim_id 0 (entAt g i) ha)]

/-- A game with a single red ball far away from the single hole. -/
def gC3w : Game :=
  { width := 1200, height := 800, entities := [mkRedBall (100, 100)],
    entsToAdd := [], holes := [(500, 500)], score := 0, shotsLeft := 30,
    shot := true, ballHitThisShot := false, playing := true, sounds := [],
    popups := [] }

/-- Witness for the amended C3 at a concrete off-hole red ball. -/
theorem C3_amended_witness : entityUpdate ⟨false, (0, 0)⟩ 0 gC3w 0 = some gC3w := by
  apply C3_amended_dt_zero
  · rw [show (entAt gC3w 0).kind = .red from rfl]; decide
  · rfl
  · rfl
  · intro hole hm
    rw [show gC3w.holes = [(500, 500)] from rfl] at hm
    rw [List.mem_singleton.mp hm]
    rw [show entAt gC3w 0 = mkRedBall (100, 100) from rfl]
    norm_num [square_dist, add_vectors, sub_vectors, mkRedBall, HOLE_R]

/-! ### C2: the collision impulse and its split -/

lemma scale_scale (v : Vec) (a b : ℝ) :
    scale_vector (scale_vector v a) b = scale_vector v (a * b) := by
  simp [scale_vector, mul_assoc]

lemma applyForceAt_eq (g : Game) (i : ℕ) (f : Vec)
    (hk : (entAt g i).kind ≠ .wall) (hm : (entAt g i).mass ≠ 0) :
    applyForceAt g i f =
      some (setEnt g i { entAt g i with
        acc := add_vectors (entAt g i).acc (scale_vector f (1 / (entAt g i).mass)) }) := by
  unfold applyForceAt applyForceE
  rw [if_neg hk, if_neg hm]
  rfl

/-- C2 amended: the response force is normal * (2 * 0.9 * (relative
velocity · normal) / dt) as claimed, but it is split proportional to
each body's OWN fraction of the total system mass (self receives
force * (-m_self/total), the struck entity force * (m_other/total)), so
after apply_force divides by the receiving mass both accelerations
change by force/total in magnitude; when the struck entity has mass 0 it
absorbs nothing and the moving entity's acceleration receives the full
-force. -/
theorem C2_amended_impulse_split (g : Game) (i j : ℕ) (n : Vec) (dt : ℝ)
    (hij : j ≠ i)
    (hke : (entAt g i).kind ≠ .wall)
    (hme : (entAt g i).mass ≠ 0) :
    ((entAt g j).mass = 0 →
      collisionResponse i j n dt g =
        some (setEnt g i { entAt g i with
          acc := add_vectors (entAt g i).acc
            (scale_vector (responseForce g i j n dt) (-1)) })) ∧
    ((entAt g j).kind ≠ .wall → (entAt g j).mass ≠ 0 →
      (entAt g i).mass + (entAt g j).mass ≠ 0 →
      collisionResponse i j n dt g =
        some (setEnt (setEnt g i { entAt g i with
            acc := add_vectors (entAt g i).acc
              (scale_vector (responseForce g i j n dt)
                (-(1 / ((entAt g i).mass + (entAt g j).mass)))) }) j
          { entAt g j with
            acc := add_vectors (entAt g j).acc
              (scale_vector (responseForce g i j n dt)
                (1 / ((entAt g i).mass + (entAt g j).mass))) })) := by
  constructor
  · intro hmo
    simp only [collisionResponse]
    rw [if_pos hmo, applyForceAt_eq g i _ hke hme, scale_scale]
    rw [show -(entAt g i).mass * (1 / (entAt g i).mass) = -1 by field_simp]
  · intro hko hmo htot
    simp only [collisionResponse]
    rw [if_neg hmo, if_neg htot, applyForceAt_eq g i _ hke hme]
    show applyForceAt _ j _ = _
    have hj1 : entAt (setEnt g i { entAt g i with
        acc := add_vectors (entAt g i).acc
          (scale_vector (scale_vector (responseForce g i j n dt)
            (-(entAt g i).mass / ((entAt g i).mass + (entAt g j).mass)))
            (1 / (entAt g i).mass)) }) j = entAt g j :=
      entAt_setEnt_ne g i j _ hij
    rw [applyForceAt_eq _ j _ (by rw [hj1]; exact hko) (by rw [hj1]; exact hmo), hj1]
    rw [scale_scale, scale_scale]
    rw [show -(entAt g i).mass / ((entAt g i).mass + (entAt g j).mass) *
        (1 / (entAt g i).mass) = -(1 / ((entAt g i).mass + (entAt g j).mass)) by
      field_simp; ring]
    rw [show (entAt g j).mass / ((entAt g i).mass + (entAt g j).mass) *
        (1 / (entAt g j).mass) = 1 / ((entAt g i).mass + (entAt g j).mass) by
      field_simp; ring]

/-- A moving red ball (mass 1) about to receive the reaction of hitting
a stationary black ball (mass 9/16). -/
def gC2 : Game :=
  { width := 1200, height := 800,
    entities := [{ mkRedBall (100, 100) with vel := (10, 0) }, mkBlackBall (130, 100)],
    entsToAdd := [], holes := [], score := 0, shotsLeft := 30, shot := true,
    ballHitThisShot := false, playing := true, sounds := [], popups := [] }

/-- Counterexample to C2 as stated: with self of mass 1 and the struck
body of mass 9/16, relative velocity (10,0), normal (1,0), dt = 1, the
force is (18,0) and the total mass 25/16; the code changes the moving
body's acceleration by -force/total = (-288/25, 0), not by the
claim's split proportional to the other body's mass fraction, which
would be force * (-(m_other/total)) / m_self = (-162/25, 0). -/
theorem C2_counterexample :
    Option.map (fun g => (entAt g 0).acc) (collisionResponse 0 1 (1, 0) 1 gC2) =
      some ((-288) / 25, 0) ∧
    (((-288) / 25 : ℝ), (0 : ℝ)) ≠
      scale_vector (scale_vector (responseForce gC2 0 1 (1, 0) 1)
        (-((entAt gC2 1).mass / ((entAt gC2 0).mass + (entAt gC2 1).mass))))
        (1 / (entAt gC2 0).mass) := by
  have hforce : responseForce gC2 0 1 (1, 0) 1 = (18, 0) := by
    unfold responseForce
    rw [show (entAt gC2 0).vel = ((10 : ℝ), (0 : ℝ)) from rfl,
      show (entAt gC2 1).vel = ((0 : ℝ), (0 : ℝ)) from rfl]
    norm_num [dot_product, sub_vectors, scale_vector, COLLISION_ELASTICITY]
  have hm0 : (entAt gC2 0).mass = 1 := rfl
  have hm1 : (entAt gC2 1).mass = 9 / 16 := by
    rw [show (entAt gC2 1).mass = (15 * 0.75 / 15 : ℝ) ^ 2 from rfl]
    norm_num
  constructor
  · have h2 := (C2_amended_impulse_split gC2 0 1 (1, 0) 1 (by norm_num)
      (by rw [show (entAt gC2 0).kind = EKind.red from rfl]; decide)
      (by rw [hm0]; norm_num)).2
      (by rw [show (entAt gC2 1).kind = EKind.black from rfl]; decide)
      (by rw [hm1]; norm_num) (by rw [hm0, hm1]; norm_num)
    rw [h2]
    simp only [Option.map_some']
    rw [entAt_setEnt_ne _ 1 0 _ (by norm_num),
      entAt_setEnt_self _ 0 _ (by rw [show gC2.entities.length = 2 from rfl]; norm_num)]
    rw [show (entAt gC2 0).acc = ((0 : ℝ), (0 : ℝ)) from rfl, hforce, hm0, hm1]
    norm_num [add_vectors, scale_vector]
  · rw [hforce, hm0, hm1]
    norm_num [scale_vector, Prod.ext_iff]

/-- A moving red ball next to a wall (mass 0). -/
def gC2w : Game :=
  { width := 1200, height := 800,
    entities := [{ mkRedBall (100, 100) with vel := (10, 0) }, mkWall (200, 0) (10, 800)],
    entsToAdd := [], holes := [], score := 0, shotsLeft := 30, shot := true,
    ballHitThisShot := false, playing := true, sounds := [], popups := [] }

/-- Witness for the amended C2: the mass-0 branch at a concrete ball and
wall — the wall absorbs nothing and the ball receives the full -force. -/
theorem C2_amended_witness :
    collisionResponse 0 1 (1, 0) 1 gC2w =
      some (setEnt gC2w 0 { entAt gC2w 0 with
        acc := add_vectors (entAt gC2w 0).acc
          (scale_vector (responseForce gC2w 0 1 (1, 0) 1) (-1)) }) := by
  exact (C2_amended_impulse_split gC2w 0 1 (1, 0) 1 (by norm_num)
    (by rw [show (entAt gC2w 0).kind = EKind.red from rfl]; decide)
    (by rw [show (entAt gC2w 0).mass = (1 : ℝ) from rfl]; norm_num)).1 rfl

/-! ### C4: the velocity snap -/

/-- The velocity of the entity at index i, as an observation. -/
def velAt (i : ℕ) (g : Game) : Vec := (entAt g i).vel

lemma vector_size_nonneg (v : Vec) : 0 ≤ vector_size v := Real.sqrt_nonneg _

lemma vector_size_eq_zero (v : Vec) : vector_size v = 0 ↔ v = (0, 0) := by
  unfold vector_size
  rw [Real.sqrt_eq_zero (by positivity)]
  constructor
  · intro h
    have h1 : v.1 ^ 2 = 0 := by nlinarith [sq_nonneg v.1, sq_nonneg v.2]
    have h2 : v.2 ^ 2 = 0 := by nlinarith [sq_nonneg v.1, sq_nonneg v.2]
    have : v = (v.1, v.2) := rfl
    rw [this, pow_eq_zero_iff (two_ne_zero) |>.mp h1, pow_eq_zero_iff (two_ne_zero) |>.mp h2]
  · intro h
    rw [h]
    norm_num

lemma dot_self (v : Vec) : dot_product v v = vector_size v ^ 2 := by
  unfold dot_product vector_size
  rw [Real.sq_sqrt (by positivity)]
  ring

lemma normalize_vector_zero : normalize_vector (0, 0) = (0, 0) := by
  unfold normalize_vector
  rw [if_pos ((vector_size_eq_zero (0, 0)).mpr rfl)]

lemma setEnt_setEnt (g : Game) (i : ℕ) (a b : Entity) :
    setEnt (setEnt g i a) i b = setEnt g i b := by
  simp [setEnt, List.set_set]

lemma handleCollisions_single (g : Game) (h : g.entities.length = 1) :
    handleCollisions 0 g = none := by
  unfold handleCollisions
  rw [h]
  rfl

lemma baseUpdate_single (g : Game) (e : Entity) (dt : ℝ)
    (hg : g.entities = [e]) (hkw : e.kind ≠ .wall) (hm : e.mass ≠ 0)
    (hdt : ¬ dt = 0) (hacc : e.acc = (0, 0)) :
    baseUpdate 0 g dt =
      some (setEnt g 0
        { e with
          pos := add_vectors e.pos (scale_vector e.vel dt),
          vel :=
            if dot_product
                (add_vectors e.vel (scale_vector (normalize_vector e.vel) (-e.friction * dt)))
                (add_vectors e.vel (scale_vector (normalize_vector e.vel) (-e.friction * dt)))
              ≤ 50 then (0, 0)
            else add_vectors e.vel (scale_vector (normalize_vector e.vel) (-e.friction * dt)),
          acc := (0, 0) }) := by
  have hE : entAt g 0 = e := by show g.entities.getD 0 defEntity = e; rw [hg]; rfl
  have hlen : g.entities.length = 1 := by rw [hg]; rfl
  have hlt : (0 : ℕ) < g.entities.length := by omega
  have hkw0 : (entAt g 0).kind ≠ .wall := by rw [hE]; exact hkw
  have hm0 : (entAt g 0).mass ≠ 0 := by rw [hE]; exact hm
  simp only [baseUpdate]
  rw [if_neg hdt]
  rw [applyForceAt_eq g 0 _ hkw0 hm0]
  simp only [Option.some_bind, hE, modEnt, entAt_setEnt_self _ 0 _ hlt, setEnt_setEnt,
    setEnt_length]
  rw [handleCollisions_single _ (by rw [setEnt_length]; exact hlen)]
  show Option.bind (some _) _ = _
  rw [Option.some_bind]
  simp only [modEnt, entAt_setEnt_self _ 0 _ hlt, setEnt_setEnt, setEnt_length]
  have hvel : scale_vector (add_vectors e.acc
      (scale_vector (set_mag e.vel (-(e.friction * e.mass))) (1 / e.mass))) dt =
      scale_vector (normalize_vector e.vel) (-e.friction * dt) := by
    rw [hacc]
    unfold set_mag
    rw [scale_scale, show -(e.friction * e.mass) * (1 / e.mass) = -e.friction by field_simp]
    simp [add_vectors, scale_vector, mul_assoc]
  rw [hvel]
  by_cases hsnap : dot_product
      (add_vectors e.vel (scale_vector (normalize_vector e.vel) (-e.friction * dt)))
      (add_vectors e.vel (scale_vector (normalize_vector e.vel) (-e.friction * dt))) ≤ 50
  · rw [if_pos hsnap, if_pos hsnap]
  · rw [if_neg hsnap, if_neg hsnap]

lemma frictionStep_dot (v : Vec) (fr dt : ℝ) :
    dot_product (add_vectors v (scale_vector (normalize_vector v) (-fr * dt)))
      (add_vectors v (scale_vector (normalize_vector v) (-fr * dt))) =
    if v = (0, 0) then 0 else (vector_size v - fr * dt) ^ 2 := by
  by_cases hv : v = (0, 0)
  · rw [if_pos hv, hv, normalize_vector_zero]
    simp [dot_product, add_vectors, scale_vector]
  · rw [if_neg hv]
    have hL : vector_size v ≠ 0 := fun hc => hv ((vector_size_eq_zero v).mp hc)
    have hL2 : vector_size v ^ 2 = v.1 ^ 2 + v.2 ^ 2 := Real.sq_sqrt (by positivity)
    unfold normalize_vector
    rw [if_neg hL]
    unfold dot_product add_vectors scale_vector
    dsimp only
    have hfac : ∀ x : ℝ, x + x * (1 / vector_size v) * (-fr * dt) =
        x * ((vector_size v - fr * dt) / vector_size v) := by
      intro x
      field_simp
      ring
    rw [hfac v.1, hfac v.2,
      show v.1 * ((vector_size v - fr * dt) / vector_size v) *
          (v.1 * ((vector_size v - fr * dt) / vector_size v)) +
          v.2 * ((vector_size v - fr * dt) / vector_size v) *
          (v.2 * ((vector_size v - fr * dt) / vector_size v)) =
          (v.1 ^ 2 + v.2 ^ 2) * ((vector_size v - fr * dt) / vector_size v) ^ 2 by ring,
      ← hL2, div_pow]
    field_simp

/-- C4 amended: for a non-player ball with no pending forces, one update
with dt > 0, no collision partner and no hole leaves the velocity exactly
zero provided the squared speed is below 50 AND the friction impulse
does not overshoot the snap window: (|v| - friction*dt)^2 <= 50.  (With a
large dt the friction step reverses and enlarges the velocity instead,
so the plain claim fails; see the counterexample.) -/
theorem C4_amended_velocity_snap (inp : Input) (g : Game) (e : Entity) (dt : ℝ)
    (hg : g.entities = [e]) (hh : g.holes = [])
    (hkp : e.kind ≠ .player) (hkw : e.kind ≠ .wall)
    (hp : e.pottedThisShot = false) (ha : e.anim.going = false)
    (hm : e.mass ≠ 0) (hacc : e.acc = (0, 0))
    (hdt : 0 < dt)
    (hsmall : dot_product e.vel e.vel < 50)
    (hshot : (vector_size e.vel - e.friction * dt) ^ 2 ≤ 50) :
    Option.map (velAt 0) (entityUpdate inp 0 g dt) = some (0, 0) := by
  have hE : entAt g 0 = e := by show g.entities.getD 0 defEntity = e; rw [hg]; rfl
  have hlen : g.entities.length = 1 := by rw [hg]; rfl
  have hlt : (0 : ℕ) < g.entities.length := by omega
  have hsnap : dot_product
      (add_vectors e.vel (scale_vector (normalize_vector e.vel) (-e.friction * dt)))
      (add_vectors e.vel (scale_vector (normalize_vector e.vel) (-e.friction * dt))) ≤ 50 := by
    rw [frictionStep_dot]
    by_cases hv : e.vel = (0, 0)
    · rw [if_pos hv]; norm_num
    · rw [if_neg hv]; exact hshot
  rw [entityUpdate_ball inp 0 g dt (by rw [hE]; exact hkp) (by rw [hE]; exact hkw)
    (by rw [hE]; exact hp)]
  rw [ballUpdate_some 0 g _ dt
    (baseUpdate_single g e dt hg hkw hm (by intro hc; rw [hc] at hdt; exact lt_irrefl 0 hdt) hacc)]
  rw [if_pos hsnap]
  rw [show (setEnt g 0
      { e with pos := add_vectors e.pos (scale_vector e.vel dt),
               vel := ((0 : ℝ), (0 : ℝ)), acc := ((0 : ℝ), (0 : ℝ)) }).holes = g.holes
    from rfl, hh, List.foldl_nil]
  rw [modEnt_id _ 0 _ (by
    rw [entAt_setEnt_self _ 0 _ hlt]
    exact updateAnim_id dt _ ha)]
  simp only [Option.map_some']
  rw [show velAt 0 (setEnt g 0
      { e with pos := add_vectors e.pos (scale_vector e.vel dt),
               vel := ((0 : ℝ), (0 : ℝ)), acc := ((0 : ℝ), (0 : ℝ)) }) =
    (entAt (setEnt g 0
      { e with pos := add_vectors e.pos (scale_vector e.vel dt),
               vel := ((0 : ℝ), (0 : ℝ)), acc := ((0 : ℝ), (0 : ℝ)) }) 0).vel from rfl]
  rw [entAt_setEnt_self _ 0 _ hlt]

/-- A red ball moving at (7, 0): squared speed 49, just under the snap
threshold 50. -/
def eC4 : Entity := { mkRedBall (300, 300) with vel := (7, 0) }

/-- A game holding only that ball, with no holes. -/
def gC4 : Game :=
  { width := 1200, height := 800, entities := [eC4], entsToAdd := [],
    holes := [], score := 0, shotsLeft := 30, shot := true,
    ballHitThisShot := false, playing := true, sounds := [], popups := [] }

lemma vector_size_seven : vector_size ((7 : ℝ), (0 : ℝ)) = 7 := by
  unfold vector_size
  rw [show ((7 : ℝ) ^ 2 + (0 : ℝ) ^ 2) = 7 ^ 2 by norm_num]
  exact Real.sqrt_sq (by norm_num)

/-- Witness for the amended C4: the ball at velocity (7,0) with dt = 1/100
snaps to exactly zero velocity. -/
theorem C4_amended_witness :
    Option.map (velAt 0) (entityUpdate ⟨false, (0, 0)⟩ 0 gC4 (1 / 100)) = some (0, 0) := by
  apply C4_amended_velocity_snap ⟨false, (0, 0)⟩ gC4 eC4 (1 / 100) rfl rfl
  · rw [show eC4.kind = .red from rfl]; decide
  · rw [show eC4.kind = .red from rfl]; decide
  · rfl
  · rfl
  · rw [show eC4.mass = (1 : ℝ) from rfl]; norm_num
  · rfl
  · norm_num
  · rw [show eC4.vel = ((7 : ℝ), (0 : ℝ)) from rfl]
    norm_num [dot_product]
  · rw [show eC4.vel = ((7 : ℝ), (0 : ℝ)) from rfl,
      show eC4.friction = (400 : ℝ) from rfl, vector_size_seven]
    norm_num

/-- Counterexample to C4 as stated: the same ball with dt = 1 satisfies
the claim's premise (squared speed 49 < 50), yet the friction impulse
overshoots: one update yields velocity (-393, 0), not zero. -/
theorem C4_counterexample :
    dot_product ((7 : ℝ), (0 : ℝ)) (7, 0) < 50 ∧
    Option.map (velAt 0) (entityUpdate ⟨false, (0, 0)⟩ 0 gC4 1) = some (-393, 0) ∧
    (((-393 : ℝ), (0 : ℝ)) : Vec) ≠ (0, 0) := by
  have hnorm : normalize_vector ((7 : ℝ), (0 : ℝ)) = (1, 0) := by
    unfold normalize_vector
    rw [if_neg (by rw [vector_size_seven]; norm_num), vector_size_seven]
    norm_num [scale_vector]
  have hE : entAt gC4 0 = eC4 := rfl
  have hlt : (0 : ℕ) < gC4.entities.length := by
    rw [show gC4.entities.length = 1 from rfl]; norm_num
  refine ⟨by norm_num [dot_product], ?_, by simp [Prod.ext_iff]⟩
  rw [entityUpdate_ball _ 0 gC4 1 (by rw [show (entAt gC4 0).kind = .red from rfl]; decide)
    (by rw [show (entAt gC4 0).kind = .red from rfl]; decide) rfl]
  rw [ballUpdate_some 0 gC4 _ 1
    (baseUpdate_single gC4 eC4 1 rfl (by rw [show eC4.kind = .red from rfl]; decide)
      (by rw [show eC4.mass = (1 : ℝ) from rfl]; norm_num) (by norm_num) rfl)]
  have hnv : add_vectors eC4.vel (scale_vector (normalize_vector eC4.vel)
      (-eC4.friction * 1)) = ((-393 : ℝ), (0 : ℝ)) := by
    rw [show eC4.vel = ((7 : ℝ), (0 : ℝ)) from rfl,
      show eC4.friction = (400 : ℝ) from rfl, hnorm]
    norm_num [add_vectors, scale_vector]
  rw [hnv]
  rw [if_neg (by norm_num [dot_product])]
  rw [show (setEnt gC4 0
      { eC4 with pos := add_vectors eC4.pos (scale_vector eC4.vel 1),
                 vel := ((-393 : ℝ), (0 : ℝ)), acc := ((0 : ℝ), (0 : ℝ)) }).holes = []
    from rfl, List.foldl_nil]
  rw [modEnt_id _ 0 _ (by
    rw [entAt_setEnt_self _ 0 _ hlt]
    exact updateAnim_id 1 _ rfl)]
  simp only [Option.map_some']
  rw [show velAt 0 (setEnt gC4 0
      { eC4 with pos := add_vectors eC4.pos (scale_vector eC4.vel 1),
                 vel := ((-393 : ℝ), (0 : ℝ)), acc := ((0 : ℝ), (0 : ℝ)) }) =
    (entAt (setEnt gC4 0
      { eC4 with pos := add_vectors eC4.pos (scale_vector eC4.vel 1),
                 vel := ((-393 : ℝ), (0 : ℝ)), acc := ((0 : ℝ), (0 : ℝ)) }) 0).vel from rfl]
  rw [entAt_setEnt_self _ 0 _ hlt]

/-! ### Frame properties of one entity update

The update of the entity at index i can touch other entities only
through apply_force during collision resolution, i.e. only their
acceleration; it never decreases a nonnegative score, never touches
shots_left or the holes, never un-sets the shot flag, and only queues
fresh (unremoved) entities. -/

/-- e' differs from e at most in its acceleration. -/
def AccOnly (e e' : Entity) : Prop := ∃ a, e' = { e with acc := a }

lemma accOnly_refl (e : Entity) : AccOnly e e := ⟨e.acc, rfl⟩

lemma accOnly_trans {e e' e'' : Entity} (h1 : AccOnly e e') (h2 : AccOnly e' e'') :
    AccOnly e e'' := by
  obtain ⟨a, ha⟩ := h1
  obtain ⟨b, hb⟩ := h2
  exact ⟨b, by rw [hb, ha]⟩

lemma AccOnly.fields {e e' : Entity} (h : AccOnly e e') :
    e'.kind = e.kind ∧ e'.vel = e.vel ∧ e'.toRemove = e.toRemove ∧
    e'.pottedThisShot = e.pottedThisShot := by
  obtain ⟨a, ha⟩ := h
  rw [ha]
  exact ⟨rfl, rfl, rfl, rfl⟩

/-- The frame of an update of entity i: what it cannot do to the rest of
the game state. -/
def Frame (i : ℕ) (g g' : Game) : Prop :=
  g'.entities.length = g.entities.length ∧
  (∀ j, j ≠ i → AccOnly (entAt g j) (entAt g' j)) ∧
  g'.shotsLeft = g.shotsLeft ∧
  g'.holes = g.holes ∧
  (g.shot = true → g'.shot = true) ∧
  (∀ e ∈ g'.entsToAdd, e ∈ g.entsToAdd ∨ e.toRemove = false) ∧
  (0 ≤ g.score → 0 ≤ g'.score)

lemma frame_refl (i : ℕ) (g : Game) : Frame i g g :=
  ⟨rfl, fun j _ => accOnly_refl _, rfl, rfl, fun h => h, fun _ he => Or.inl he, fun h => h⟩

lemma frame_trans {i : ℕ} {g g' g'' : Game} (h1 : Frame i g g') (h2 : Frame i g' g'') :
    Frame i g g'' := by
  obtain ⟨l1, a1, s1, ho1, sh1, e1, sc1⟩ := h1
  obtain ⟨l2, a2, s2, ho2, sh2, e2, sc2⟩ := h2
  refine ⟨l2.trans l1, fun j hj => accOnly_trans (a1 j hj) (a2 j hj),
    s2.trans s1, ho2.trans ho1, fun h => sh2 (sh1 h), ?_, fun h => sc2 (sc1 h)⟩
  intro e he
  rcases e2 e he with h | h
  · exact e1 e h
  · exact Or.inr h

lemma frame_setEnt (i : ℕ) (g : Game) (e : Entity) : Frame i g (setEnt g i e) := by
  refine ⟨by simp, fun j hj => ?_, rfl, rfl, fun h => h, fun e he => Or.inl he, fun h => h⟩
  rw [entAt_setEnt_ne g i j e hj]
  exact accOnly_refl _

lemma frame_modEnt (i : ℕ) (g : Game) (f : Entity → Entity) :
    Frame i g (modEnt g i f) := frame_setEnt i g _

lemma frame_playSound (i : ℕ) (g : Game) (s : String) : Frame i g (playSound g s) :=
  ⟨rfl, fun j _ => accOnly_refl _, rfl, rfl, fun h => h, fun _ he => Or.inl he, fun h => h⟩

lemma frame_addPopup (i : ℕ) (g : Game) (t : String) : Frame i g (addPopup g t) :=
  ⟨rfl, fun j _ => accOnly_refl _, rfl, rfl, fun h => h, fun _ he => Or.inl he, fun h => h⟩

lemma frame_withScore (i : ℕ) (g : Game) (s : ℤ) (hs : 0 ≤ g.score → 0 ≤ s) :
    Frame i g { g with score := s } :=
  ⟨rfl, fun j _ => accOnly_refl _, rfl, rfl, fun h => h, fun _ he => Or.inl he, hs⟩

lemma set_oob (l : List Entity) : ∀ (i : ℕ) (e : Entity), l.length ≤ i → l.set i e = l := by
  induction l with
  | nil => intro i e _; rfl
  | cons a t ih =>
    intro i e h
    cases i with
    | zero => simp at h
    | succ n => show a :: t.set n e = a :: t; rw [ih n e (by simpa using h)]

lemma frame_applyForceAt {g g' : Game} {k : ℕ} {f : Vec} (i : ℕ)
    (h : applyForceAt g k f = some g') : Frame i g g' := by
  obtain ⟨a, ha⟩ := applyForceAt_some h
  subst ha
  refine ⟨by simp, fun j hj => ?_, rfl, rfl, fun h => h, fun e he => Or.inl he, fun h => h⟩
  by_cases hjk : j = k
  · subst hjk
    by_cases hlt : j < g.entities.length
    · rw [entAt_setEnt_self g j _ hlt]
      exact ⟨a, rfl⟩
    · have hset : entAt (setEnt g j { entAt g j with acc := a }) j = entAt g j := by
        unfold entAt setEnt
        rw [set_oob g.entities j _ (by omega)]
      rw [hset]
      exact accOnly_refl _
  · rw [entAt_setEnt_ne g k j _ hjk]
    exact accOnly_refl _

lemma frame_collisionResponse {g g' : Game} {k j : ℕ} {n : Vec} {dt : ℝ} (i : ℕ)
    (h : collisionResponse k j n dt g = some g') : Frame i g g' := by
  unfold collisionResponse at h
  by_cases hm : (entAt g j).mass = 0
  · rw [if_pos hm] at h
    exact frame_applyForceAt i h
  · rw [if_neg hm] at h
    by_cases ht : (entAt g k).mass + (entAt g j).mass = 0
    · rw [if_pos ht] at h
      cases h
    · rw [if_neg ht, Option.bind_eq_some] at h
      obtain ⟨g1, h1, h2⟩ := h
      exact frame_trans (frame_applyForceAt i h1) (frame_applyForceAt i h2)

lemma frame_baseUpdate {g g' : Game} {k : ℕ} {dt : ℝ}
    (h : baseUpdate k g dt = some g') : Frame k g g' := by
  unfold baseUpdate at h
  by_cases hdt : dt = 0
  · rw [if_pos hdt] at h
    cases h
    exact frame_refl k g
  · rw [if_neg hdt, Option.bind_eq_some] at h
    obtain ⟨g1, h1, h2⟩ := h
    rw [Option.bind_eq_some] at h2
    obtain ⟨g4, h4, h5⟩ := h2
    have hf1 : Frame k g g1 := frame_applyForceAt k h1
    have hf2 : Frame k g1 g4 := by
      rcases hcol : handleCollisions k (modEnt g1 k fun e =>
          { e with pos := add_vectors e.pos (scale_vector e.vel dt) }) with _ | ⟨n, j⟩ <;>
        rw [hcol] at h4
      · cases h4
        exact frame_modEnt k g1 _
      · exact frame_trans (frame_modEnt k g1 _)
          (frame_trans (frame_trans (frame_playSound k _ "hit") (frame_modEnt k _ _))
            (frame_collisionResponse k h4))
    cases h5
    exact frame_trans hf1 (frame_trans hf2
      (frame_trans (frame_modEnt k g4 _)
        (frame_trans (frame_modEnt k _ _) (frame_modEnt k _ _))))

lemma frame_ballPot (i : ℕ) (g : Game) : Frame i g (ballPot i g) := by
  unfold ballPot
  exact frame_trans (frame_playSound i g "score")
    (frame_trans (frame_addPopup i _ "+1")
      (frame_trans (frame_withScore i _ _ (by intro h; omega)) (frame_modEnt i _ _)))

lemma frame_potEntity (i : ℕ) (g : Game) : Frame i g (potEntity i g) := by
  simp only [potEntity]
  cases hkind : (entAt g i).kind <;> dsimp only
  case player =>
    exact frame_trans (frame_playSound i g "player_sink") (frame_modEnt i _ _)
  case red =>
    by_cases hp : (entAt g i).pottedThisShot = true
    · rw [if_pos hp]
      exact frame_refl i g
    · rw [if_neg hp]
      by_cases hall : ∀ j < g.entities.length, (entAt g j).kind = .red → j = i
      · rw [if_pos hall]
        exact frame_trans (frame_playSound i g "reset")
          (frame_trans (frame_withScore i _ _ (by intro h; omega))
            (frame_trans (frame_addPopup i _ "Red Clear!") (frame_modEnt i _ _)))
      · rw [if_neg hall]
        exact frame_ballPot i g
  case blue =>
    by_cases hp : (entAt g i).pottedThisShot = true
    · rw [if_pos hp]
      exact frame_refl i g
    · rw [if_neg hp]
      exact frame_trans (frame_playSound i g "score")
        (frame_trans (frame_withScore i _ _ (by intro h; omega))
          (frame_trans (frame_addPopup i _ "+4") (frame_modEnt i _ _)))
  case black =>
    by_cases hp : (entAt g i).pottedThisShot = true
    · rw [if_pos hp]
      exact frame_refl i g
    · rw [if_neg hp]
      exact frame_trans (frame_playSound i g "score")
        (frame_trans (frame_withScore i _ _ (fun _ => le_max_right _ 0))
          (frame_trans (frame_addPopup i _ "-5") (frame_modEnt i _ _)))
  case gold =>
    by_cases hp : (entAt g i).pottedThisShot = true
    · rw [if_pos hp]
      exact frame_refl i g
    · rw [if_neg hp]
      exact frame_trans (frame_playSound i g "score")
        (frame_trans (frame_withScore i _ _ (by intro h; omega))
          (frame_trans (frame_addPopup i _ "+7") (frame_modEnt i _ _)))
  case wall =>
    exact frame_refl i g

lemma frame_holeStep (i : ℕ) (g : Game) (hole : Vec) : Frame i g (holeStep i g hole) := by
  unfold holeStep
  by_cases hc : square_dist (add_vectors (entAt g i).pos ((entAt g i).radius, (entAt g i).radius))
      hole ≤ (classR (entAt g i).kind + HOLE_R) ^ 2
  · rw [if_pos hc]
    exact frame_potEntity i g
  · rw [if_neg hc]
    exact frame_refl i g

lemma frame_holesFold (i : ℕ) : ∀ (hs : List Vec) (g : Game),
    Frame i g (hs.foldl (holeStep i) g) := by
  intro hs
  induction hs with
  | nil => intro g; exact frame_refl i g
  | cons a t ih =>
    intro g
    rw [List.foldl_cons]
    exact frame_trans (frame_holeStep i g a) (ih (holeStep i g a))

lemma frame_ballUpdate {g g' : Game} {k : ℕ} {dt : ℝ}
    (h : ballUpdate k g dt = some g') : Frame k g g' := by
  unfold ballUpdate at h
  rw [Option.map_eq_some'] at h
  obtain ⟨g1, h1, h2⟩ := h
  subst h2
  exact frame_trans (frame_baseUpdate h1)
    (frame_trans (frame_holesFold k g1.holes g1) (frame_modEnt k _ _))

lemma frame_startShot (i : ℕ) (g : Game) : Frame i g (startShot g) :=
  ⟨rfl, fun j _ => accOnly_refl _, rfl, rfl, fun _ => rfl, fun _ he => Or.inl he, fun h => h⟩

lemma frame_playerUpdate {inp : Input} {g g' : Game} {k : ℕ} {dt : ℝ}
    (h : playerUpdate inp k g dt = some g') : Frame k g g' := by
  unfold playerUpdate at h
  by_cases hpr : inp.pressed = true
  · rw [if_pos hpr] at h
    have hstart : Frame k g (if g.shot = false then startShot g else g) := by
      by_cases hs : g.shot = false
      · rw [if_pos hs]
        exact frame_startShot k g
      · rw [if_neg hs]
        exact frame_refl k g
    set g2 := if g.shot = false then startShot g else g with hg2
    have hmid : Frame k g2 (if (entAt g2 k).speed > 0 then
        modEnt g2 k fun e =>
          { e with acc := set_mag (sub_vectors inp.mousePos e.pos) e.speed,
                   speed := e.speed - 1000 * dt } else g2) := by
      by_cases hsp : (entAt g2 k).speed > 0
      · rw [if_pos hsp]
        exact frame_modEnt k g2 _
      · rw [if_neg hsp]
        exact frame_refl k g2
    exact frame_trans hstart (frame_trans hmid (frame_ballUpdate h))
  · rw [if_neg hpr] at h
    have hstart : Frame k g (if g.shot = false then
        modEnt g k fun e => { e with speed := 2000 } else g) := by
      by_cases hs : g.shot = false
      · rw [if_pos hs]
        exact frame_modEnt k g _
      · rw [if_neg hs]
        exact frame_refl k g
    exact frame_trans hstart (frame_ballUpdate h)

lemma redRespawns_toRemove (w h : ℝ) : ∀ e ∈ redRespawns w h, e.toRemove = false := by
  intro e he
  unfold redRespawns at he
  obtain ⟨p, _, rfl⟩ := List.mem_map.mp he
  rfl

lemma frame_addEntityFold (i : ℕ) : ∀ (l : List Entity) (g : Game),
    (∀ e ∈ l, e.toRemove = false) → Frame i g (l.foldl addEntity g) := by
  intro l
  induction l with
  | nil => intro g _; exact frame_refl i g
  | cons a t ih =>
    intro g hl
    rw [List.foldl_cons]
    have hstep : Frame i g (addEntity g a) := by
      refine ⟨rfl, fun j _ => accOnly_refl _, rfl, rfl, fun h => h, ?_, fun h => h⟩
      intro e he
      rcases List.mem_append.mp he with hmem | hmem
      · exact Or.inl hmem
      · rw [List.mem_singleton.mp hmem]
        exact Or.inr (hl a (List.mem_cons_self a t))
    exact frame_trans hstep (ih (addEntity g a) (fun e he => hl e (List.mem_cons_of_mem a he)))

lemma frame_entityUpdate {inp : Input} {g g' : Game} {i : ℕ} {dt : ℝ}
    (h : entityUpdate inp i g dt = some g') : Frame i g g' := by
  unfold entityUpdate at h
  cases hkind : (entAt g i).kind <;> rw [hkind] at h <;> dsimp only at h
  case wall =>
    cases h
    exact frame_refl i g
  case player =>
    exact frame_playerUpdate h
  case red =>
    by_cases hp : (entAt g i).pottedThisShot = true
    · rw [if_pos hp] at h
      by_cases hs : g.shot = false
      · rw [if_pos hs] at h
        cases h
        exact frame_trans
          (frame_addEntityFold i _ g (redRespawns_toRemove g.width g.height))
          (frame_modEnt i _ _)
      · rw [if_neg hs] at h
        cases h
        exact frame_refl i g
    · rw [if_neg hp] at h
      exact frame_ballUpdate h
  all_goals {
    by_cases hp : (entAt g i).pottedThisShot = true
    · rw [if_pos hp] at h
      by_cases hs : g.shot = false
      · rw [if_pos hs] at h
        exact frame_trans (frame_modEnt i g _) (frame_ballUpdate h)
      · rw [if_neg hs] at h
        cases h
        exact frame_refl i g
    · rw [if_neg hp] at h
      exact frame_ballUpdate h }

/-! ### The entity loop of Game.update -/

lemma passLoop_frame (inp : Input) (dt : ℝ) : ∀ (is : List ℕ) (g : Game) (mov : Bool)
    (keep : List Bool) (g1 : Game) (mov1 : Bool) (keep1 : List Bool),
    passLoop inp dt is (g, mov, keep) = some (g1, mov1, keep1) →
    g1.entities.length = g.entities.length ∧
    g1.shotsLeft = g.shotsLeft ∧
    (g.shot = true → g1.shot = true) ∧
    (0 ≤ g.score → 0 ≤ g1.score) ∧
    (∀ e ∈ g1.entsToAdd, e ∈ g.entsToAdd ∨ e.toRemove = false) ∧
    (∀ j, j ∉ is → AccOnly (entAt g j) (entAt g1 j)) := by
  intro is
  induction is with
  | nil =>
    intro g mov keep g1 mov1 keep1 h
    simp only [passLoop, Option.some.injEq, Prod.mk.injEq] at h
    obtain ⟨rfl, -, -⟩ := h
    exact ⟨rfl, rfl, fun h => h, fun h => h, fun _ he => Or.inl he,
      fun j _ => accOnly_refl _⟩
  | cons i rest ih =>
    intro g mov keep g1 mov1 keep1 h
    simp only [passLoop] at h
    rw [Option.bind_eq_some] at h
    obtain ⟨gA, hA, hrest⟩ := h
    obtain ⟨l2, s2, sh2, sc2, e2, a2⟩ := ih gA _ _ g1 mov1 keep1 hrest
    obtain ⟨l1, a1, s1, -, sh1, e1, sc1⟩ := frame_entityUpdate hA
    refine ⟨l2.trans l1, s2.trans s1, fun h => sh2 (sh1 h), fun h => sc2 (sc1 h), ?_, ?_⟩
    · intro e he
      rcases e2 e he with hmem | hmem
      · exact e1 e hmem
      · exact Or.inr hmem
    · intro j hj
      have hji : j ≠ i := fun hc => hj (hc ▸ List.mem_cons_self i rest)
      have hjr : j ∉ rest := fun hc => hj (List.mem_cons_of_mem i hc)
      exact accOnly_trans (a1 j hji) (a2 j hjr)

lemma passLoop_spec (inp : Input) (dt : ℝ) : ∀ (is : List ℕ) (g : Game) (mov : Bool)
    (keep : List Bool) (g1 : Game) (mov1 : Bool) (keep1 : List Bool),
    passLoop inp dt is (g, mov, keep) = some (g1, mov1, keep1) → is.Nodup →
    keep1 = keep ++ is.map (fun i => !(entAt g1 i).toRemove) ∧
    mov1 = (mov || is.any (fun i => isBall (entAt g1 i).kind &&
      decide (vector_size (entAt g1 i).vel ≠ 0))) := by
  intro is
  induction is with
  | nil =>
    intro g mov keep g1 mov1 keep1 h _
    simp only [passLoop, Option.some.injEq, Prod.mk.injEq] at h
    obtain ⟨-, rfl, rfl⟩ := h
    simp
  | cons i rest ih =>
    intro g mov keep g1 mov1 keep1 h hnd
    simp only [passLoop] at h
    rw [Option.bind_eq_some] at h
    obtain ⟨gA, hA, hrest⟩ := h
    have hnd' := (List.nodup_cons.mp hnd)
    obtain ⟨hk, hm⟩ := ih gA _ _ g1 mov1 keep1 hrest hnd'.2
    have hstable : AccOnly (entAt gA i) (entAt g1 i) :=
      (passLoop_frame inp dt rest gA _ _ g1 mov1 keep1 hrest).2.2.2.2.2 i hnd'.1
    obtain ⟨hkind, hvel, hrem, -⟩ := hstable.fields
    constructor
    · rw [hk, ← hrem, List.append_assoc, List.singleton_append, List.map_cons]
    · rw [hm, ← hkind, ← hvel, List.any_cons, Bool.or_assoc]

lemma gamePass_eq {inp : Input} {g : Game} {dt : ℝ} {g1 : Game} {mov1 : Bool}
    {keep1 : List Bool}
    (h : passLoop inp dt (List.range g.entities.length) (g, false, []) =
      some (g1, mov1, keep1)) :
    gamePass inp g dt =
      some ({ g1 with entities := filterByKeep g1.entities keep1 ++ g1.entsToAdd,
                      entsToAdd := [] }, mov1) := by
  unfold gamePass
  rw [h]
  rfl

lemma gameUpdate_eq {inp : Input} {g : Game} {dt : ℝ} {p : Game × Bool}
    (h : gamePass inp g dt = some p) :
    gameUpdate inp g dt =
      some (if p.1.shot && !p.2 && !inp.pressed then endShot p.1 else p.1) := by
  unfold gameUpdate
  rw [h]
  rfl

@[simp] lemma endShot_score (g : Game) : (endShot g).score = g.score := by
  simp only [endShot]
  split_ifs <;> rfl

@[simp] lemma endShot_entities (g : Game) : (endShot g).entities = g.entities := by
  simp only [endShot]
  split_ifs <;> rfl

@[simp] lemma endShot_shot (g : Game) : (endShot g).shot = false := by
  simp only [endShot]
  split_ifs <;> rfl

@[simp] lemma endShot_shotsLeft (g : Game) : (endShot g).shotsLeft = g.shotsLeft - 1 := by
  simp only [endShot]
  split_ifs <;> rfl

lemma filterByKeep_toRemove : ∀ (es : List Entity) (bs : List Bool),
    (∀ idx, idx < es.length → bs.getD idx false = !(es.getD idx defEntity).toRemove) →
    ∀ e ∈ filterByKeep es bs, e.toRemove = false := by
  intro es
  induction es with
  | nil =>
    intro bs _ e he
    simp [filterByKeep] at he
  | cons a t ih =>
    intro bs hprop e he
    cases bs with
    | nil => simp [filterByKeep] at he
    | cons b bt =>
      simp only [filterByKeep] at he
      have h0 : b = !a.toRemove := hprop 0 (by simp)
      have hshift : ∀ idx, idx < t.length →
          bt.getD idx false = !(t.getD idx defEntity).toRemove := by
        intro idx hidx
        exact hprop (idx + 1) (by simpa using Nat.succ_lt_succ hidx)
      by_cases hb : b = true
      · rw [if_pos hb] at he
        rcases List.mem_cons.mp he with rfl | hmem
        · rw [hb] at h0
          cases hrem : e.toRemove
          · rfl
          · rw [hrem] at h0
            simp at h0
        · exact ih bt hshift e hmem
      · rw [if_neg hb] at he
        exact ih bt hshift e he

lemma getD_map_range (n idx : ℕ) (f : ℕ → Bool) (h : idx < n) :
    ((List.range n).map f).getD idx false = f idx := by
  rw [List.getD_eq_getElem?_getD, List.getElem?_map, List.getElem?_range h]
  rfl

@[simp] lemma modEnt_popups (g : Game) (i : ℕ) (f : Entity → Entity) :
    (modEnt g i f).popups = g.popups := rfl

@[simp] lemma modEnt_sounds (g : Game) (i : ℕ) (f : Entity → Entity) :
    (modEnt g i f).sounds = g.sounds := rfl

/-- After the removal filter and the merge of the pending additions, no
entity marked for removal is left in the entity list. -/
lemma gameUpdate_no_toRemove {inp : Input} {g : Game} {dt : ℝ} {g' : Game}
    (hadd : g.entsToAdd = [])
    (h : gameUpdate inp g dt = some g') :
    ∀ e ∈ g'.entities, e.toRemove = false := by
  unfold gameUpdate at h
  rw [Option.map_eq_some'] at h
  obtain ⟨p, hp, rfl⟩ := h
  unfold gamePass at hp
  rw [Option.map_eq_some'] at hp
  obtain ⟨st, hst, rfl⟩ := hp
  obtain ⟨g1, mov1, keep1⟩ := st
  intro e he
  have he' : e ∈ filterByKeep g1.entities keep1 ++ g1.entsToAdd := by
    split at he
    · rw [endShot_entities] at he
      exact he
    · exact he
  obtain ⟨hkeep, -⟩ := passLoop_spec inp dt _ g false [] g1 mov1 keep1 hst
    (List.nodup_range g.entities.length)
  obtain ⟨hlen, -, -, -, hents, -⟩ := passLoop_frame inp dt _ g false [] g1 mov1 keep1 hst
  rcases List.mem_append.mp he' with hmem | hmem
  · apply filterByKeep_toRemove g1.entities keep1 _ e hmem
    intro idx hidx
    rw [hkeep, List.nil_append, getD_map_range _ idx _ (hlen ▸ hidx)]
    rfl
  · rcases hents e hmem with hold | hrem
    · rw [hadd] at hold
      cases hold
    · exact hrem

lemma potEntity_already (i : ℕ) (g : Game)
    (hkp : (entAt g i).kind ≠ .player)
    (hp : (entAt g i).pottedThisShot = true) : potEntity i g = g := by
  simp only [potEntity]
  cases hkind : (entAt g i).kind <;> dsimp only
  case player => exact absurd hkind hkp
  all_goals rw [if_pos hp]

/-! ### C5: potting the common (red) ball -/

/-- C5: potting a red ball while at least one other red ball remains in
the entity set runs Ball.pot exactly once: the score goes up by exactly
1, exactly one "+1" popup and one "score" sound are emitted, the ball is
marked potted and marked for removal (all other fields untouched), a
second pot call on the same ball is a no-op, and after the next
Game.update pass no entity marked for removal — in particular this ball —
is left in the active entity list. -/
theorem C5_common_ball_pot (g : Game) (i : ℕ)
    (hi : i < g.entities.length)
    (hk : (entAt g i).kind = .red) (hp : (entAt g i).pottedThisShot = false)
    (hother : ¬ ∀ j < g.entities.length, (entAt g j).kind = .red → j = i) :
    (potEntity i g).score = g.score + 1 ∧
    (potEntity i g).popups = g.popups ++ ["+1"] ∧
    (potEntity i g).sounds = g.sounds ++ ["score"] ∧
    entAt (potEntity i g) i =
      { entAt g i with pottedThisShot := true, toRemove := true } ∧
    potEntity i (potEntity i g) = potEntity i g ∧
    (∀ (inp : Input) (dt : ℝ) (g'' : Game), g.entsToAdd = [] →
      gameUpdate inp (potEntity i g) dt = some g'' →
      (∀ e'' ∈ g''.entities, e''.toRemove = false) ∧
      { entAt g i with pottedThisShot := true, toRemove := true } ∉ g''.entities) := by
  have hpot := potEntity_red_normal i g hk hp hother
  have hlen : (addPopup (playSound g "score") "+1").entities.length = g.entities.length := rfl
  have hat : entAt (potEntity i g) i =
      { entAt g i with pottedThisShot := true, toRemove := true } := by
    rw [hpot]
    unfold ballPot
    rw [entAt_modEnt_self]
    · rfl
    · exact hi
  refine ⟨by rw [hpot]; simp [ballPot], by rw [hpot]; simp [ballPot],
    by rw [hpot]; simp [ballPot], hat, ?_, ?_⟩
  · apply potEntity_already i (potEntity i g)
    · rw [hat, hk]
      decide
    · rw [hat]
  · intro inp dt g'' hadd hupd
    have hforall : ∀ e'' ∈ g''.entities, e''.toRemove = false := by
      refine gameUpdate_no_toRemove ?_ hupd
      rw [hpot]
      unfold ballPot
      rw [modEnt_entsToAdd]
      exact hadd
    refine ⟨hforall, fun hmem => ?_⟩
    have hcontra := hforall _ hmem
    simp at hcontra

/-- A two-red-ball game used to witness C5. -/
def gC5 : Game :=
  { width := 1200, height := 800,
    entities := [mkRedBall (100, 100), mkRedBall (200, 100)],
    entsToAdd := [], holes := [], score := 3, shotsLeft := 30, shot := true,
    ballHitThisShot := false, playing := true, sounds := [], popups := [] }

/-- Witness for C5 at a concrete game with two red balls. -/
theorem C5_witness :
    (potEntity 0 gC5).score = gC5.score + 1 ∧
    (potEntity 0 gC5).popups = gC5.popups ++ ["+1"] ∧
    (potEntity 0 gC5).sounds = gC5.sounds ++ ["score"] ∧
    entAt (potEntity 0 gC5) 0 =
      { entAt gC5 0 with pottedThisShot := true, toRemove := true } ∧
    potEntity 0 (potEntity 0 gC5) = potEntity 0 gC5 := by
  have h := C5_common_ball_pot gC5 0
    (by rw [show gC5.entities.length = 2 from rfl]; norm_num) rfl rfl
    (by
      intro hall
      have h1 := hall 1 (by rw [show gC5.entities.length = 2 from rfl]; norm_num) rfl
      exact absurd h1 (by norm_num))
  exact ⟨h.1, h.2.1, h.2.2.1, h.2.2.2.1, h.2.2.2.2.1⟩

/-! ### C6: the red clear bonus -/

/-- C6: potting a red ball when no other red ball remains anywhere in
the entity set (the check scans the entire list before the ball's own
pot resolution) awards the single +20 clear bonus with the "Red Clear!"
announcement and the "reset" sound instead of the normal +1 per-ball
score; the ball is marked potted (not removed, so the respawn logic can
run) with its velocity zeroed, and a second pot call is a no-op, so the
bonus fires exactly once. -/
theorem C6_red_clear_bonus (g : Game) (i : ℕ)
    (hi : i < g.entities.length)
    (hk : (entAt g i).kind = .red) (hp : (entAt g i).pottedThisShot = false)
    (hall : ∀ j < g.entities.length, (entAt g j).kind = .red → j = i) :
    (potEntity i g).score = g.score + 20 ∧
    (potEntity i g).popups = g.popups ++ ["Red Clear!"] ∧
    (potEntity i g).sounds = g.sounds ++ ["reset"] ∧
    entAt (potEntity i g) i =
      { entAt g i with vel := (0, 0), pottedThisShot := true } ∧
    (entAt (potEntity i g) i).toRemove = (entAt g i).toRemove ∧
    potEntity i (potEntity i g) = potEntity i g := by
  have hpot := potEntity_red_clear i g hk hp hall
  have hat : entAt (potEntity i g) i =
      { entAt g i with vel := (0, 0), pottedThisShot := true } := by
    rw [hpot]
    rw [entAt_modEnt_self]
    · rfl
    · exact hi
  refine ⟨by rw [hpot]; simp, by rw [hpot]; simp, by rw [hpot]; simp, hat,
    by rw [hat], ?_⟩
  apply potEntity_already i (potEntity i g)
  · rw [hat, hk]
    decide
  · rw [hat]

/-- A single-red-ball game used to witness C6. -/
def gC6 : Game :=
  { width := 1200, height := 800, entities := [mkRedBall (100, 100)],
    entsToAdd := [], holes := [], score := 3, shotsLeft := 30, shot := true,
    ballHitThisShot := false, playing := true, sounds := [], popups := [] }

/-- Witness for C6 at a concrete game whose only red ball is potted. -/
theorem C6_witness :
    (potEntity 0 gC6).score = gC6.score + 20 ∧
    (potEntity 0 gC6).popups = gC6.popups ++ ["Red Clear!"] ∧
    (potEntity 0 gC6).sounds = gC6.sounds ++ ["reset"] ∧
    entAt (potEntity 0 gC6) 0 =
      { entAt gC6 0 with vel := (0, 0), pottedThisShot := true } ∧
    (entAt (potEntity 0 gC6) 0).toRemove = (entAt gC6 0).toRemove ∧
    potEntity 0 (potEntity 0 gC6) = potEntity 0 gC6 :=
  C6_red_clear_bonus gC6 0
    (by rw [show gC6.entities.length = 1 from rfl]; norm_num) rfl rfl
    (by
      intro j hj _
      rw [show gC6.entities.length = 1 from rfl] at hj
      omega)

/-! ### C7: the shot-end condition -/

/-- C7: with a shot in progress, the shot ends in this frame exactly when
every ball (scoring body) reports zero velocity right after the entity
pass AND the primary pointer is released; a completed shot decrements
shots_left by exactly one, and a frame that does not end the shot leaves
shots_left untouched. -/
theorem C7_shot_end (inp : Input) (g : Game) (dt : ℝ)
    (g1 : Game) (mov : Bool) (keep : List Bool) (g' : Game)
    (hshot : g.shot = true)
    (hpass : passLoop inp dt (List.range g.entities.length) (g, false, []) =
      some (g1, mov, keep))
    (hupd : gameUpdate inp g dt = some g') :
    (mov = false ↔ ∀ j < g1.entities.length, isBall (entAt g1 j).kind = true →
      (entAt g1 j).vel = (0, 0)) ∧
    ((g'.shot = false ∧ g'.shotsLeft = g.shotsLeft - 1) ↔
      (mov = false ∧ inp.pressed = false)) ∧
    (g'.shot = true → g'.shotsLeft = g.shotsLeft) := by
  obtain ⟨hlen, hsl, hshot1, -, -, -⟩ :=
    passLoop_frame inp dt _ g false [] g1 mov keep hpass
  obtain ⟨-, hmovE⟩ := passLoop_spec inp dt _ g false [] g1 mov keep hpass
    (List.nodup_range g.entities.length)
  rw [Bool.false_or] at hmovE
  have hg1shot : g1.shot = true := hshot1 hshot
  have hXeq := gameUpdate_eq (gamePass_eq hpass)
  rw [hupd] at hXeq
  have hg' : some g' = some (if g1.shot && !mov && !inp.pressed then
      endShot { g1 with entities := filterByKeep g1.entities keep ++ g1.entsToAdd,
                        entsToAdd := [] }
      else { g1 with entities := filterByKeep g1.entities keep ++ g1.entsToAdd,
                     entsToAdd := [] }) := hXeq
  have hg'' := Option.some.inj hg'
  refine ⟨?_, ?_, ?_⟩
  · constructor
    · intro hm j hj hb
      rw [hm] at hmovE
      have hall := List.any_eq_false.mp hmovE.symm j (List.mem_range.mpr (hlen ▸ hj))
      rw [Bool.and_eq_true] at hall
      have hnot : ¬ vector_size (entAt g1 j).vel ≠ 0 := by
        intro hne
        exact hall ⟨hb, by simpa using hne⟩
      exact (vector_size_eq_zero _).mp (not_not.mp hnot)
    · intro hall
      rw [hmovE]
      apply List.any_eq_false.mpr
      intro x hx
      rw [Bool.and_eq_true]
      rintro ⟨hb, hd⟩
      have hv := hall x (hlen ▸ List.mem_range.mp hx) hb
      rw [hv] at hd
      have : vector_size ((0 : ℝ), (0 : ℝ)) ≠ 0 := by simpa using hd
      exact this ((vector_size_eq_zero _).mpr rfl)
  · by_cases hcond : (g1.shot && !mov && !inp.pressed) = true
    · rw [if_pos hcond] at hg''
      rw [hg'']
      rw [Bool.and_eq_true, Bool.and_eq_true] at hcond
      constructor
      · intro _
        exact ⟨by simpa using hcond.1.2, by simpa using hcond.2⟩
      · intro _
        refine ⟨endShot_shot _, ?_⟩
        rw [endShot_shotsLeft]
        show g1.shotsLeft - 1 = g.shotsLeft - 1
        rw [hsl]
    · rw [if_neg hcond] at hg''
      rw [hg'']
      constructor
      · rintro ⟨hfalse, -⟩
        exact absurd (show ({ g1 with
          entities := filterByKeep g1.entities keep ++ g1.entsToAdd,
          entsToAdd := ([] : List Entity) }).shot = true from hg1shot) (by rw [hfalse]; simp)
      · rintro ⟨hm, hpr⟩
        exfalso
        apply hcond
        rw [hg1shot, hm, hpr]
        rfl
  · intro hshot'
    by_cases hcond : (g1.shot && !mov && !inp.pressed) = true
    · rw [if_pos hcond] at hg''
      rw [hg''] at hshot'
      rw [endShot_shot] at hshot'
      cases hshot'
    · rw [if_neg hcond] at hg''
      rw [hg'']
      show g1.shotsLeft = g.shotsLeft
      exact hsl

/-- A one-wall game with a shot in progress. -/
def gC7 : Game :=
  { width := 1200, height := 800, entities := [mkWall (0, 0) (100, 10)],
    entsToAdd := [], holes := [], score := 0, shotsLeft := 30, shot := true,
    ballHitThisShot := false, playing := true, sounds := [], popups := [] }

/-- The state after that frame: shot ended, one shot spent. -/
def gC7end : Game := { gC7 with shot := false, shotsLeft := 29 }

/-- Witness for C7: with no ball moving and the pointer released, the
frame ends the shot and decrements shots_left from 30 to 29. -/
theorem C7_witness :
    (gC7end.shot = false ∧ gC7end.shotsLeft = gC7.shotsLeft - 1) ↔
      (false = false ∧ (⟨false, (0, 0)⟩ : Input).pressed = false) :=
  (C7_shot_end ⟨false, (0, 0)⟩ gC7 1 gC7 false [true] gC7end rfl rfl rfl).2.1

/-! ### C8: the score is never negative -/

/-- C8: every pot event other than the black (penalty) ball's weakly
increases the score; the black ball's pot sets the score to
max(score - 5, 0), i.e. its deduction is floored at 0; and a full
Game.update step preserves nonnegativity of the score, so the score is
never negative in any reachable state. -/
theorem C8_score_never_negative :
    (∀ (i : ℕ) (g : Game), (entAt g i).kind ≠ .black →
      g.score ≤ (potEntity i g).score) ∧
    (∀ (i : ℕ) (g : Game), (entAt g i).kind = .black →
      (entAt g i).pottedThisShot = false →
      (potEntity i g).score = max (g.score - 5) 0) ∧
    (∀ (inp : Input) (g : Game) (dt : ℝ) (g' : Game), 0 ≤ g.score →
      gameUpdate inp g dt = some g' → 0 ≤ g'.score) := by
  refine ⟨?_, ?_, ?_⟩
  · intro i g hnb
    simp only [potEntity]
    cases hkind : (entAt g i).kind <;> dsimp only
    case player => simp
    case red =>
      by_cases hp : (entAt g i).pottedThisShot = true
      · rw [if_pos hp]
      · rw [if_neg hp]
        by_cases hall : ∀ j < g.entities.length, (entAt g j).kind = .red → j = i
        · rw [if_pos hall]
          simp
        · rw [if_neg hall]
          simp [ballPot]
    case blue =>
      by_cases hp : (entAt g i).pottedThisShot = true
      · rw [if_pos hp]
      · rw [if_neg hp]
        simp
    case black => exact absurd hkind hnb
    case gold =>
      by_cases hp : (entAt g i).pottedThisShot = true
      · rw [if_pos hp]
      · rw [if_neg hp]
        simp
    case wall => exact le_refl _
  · intro i g hk hp
    simp only [potEntity, hk, hp]
    simp
  · intro inp g dt g' hsc hupd
    unfold gameUpdate at hupd
    rw [Option.map_eq_some'] at hupd
    obtain ⟨p, hp, rfl⟩ := hupd
    unfold gamePass at hp
    rw [Option.map_eq_some'] at hp
    obtain ⟨st, hst, rfl⟩ := hp
    obtain ⟨g1, mov1, keep1⟩ := st
    have hsc1 := (passLoop_frame inp dt _ g false [] g1 mov1 keep1 hst).2.2.2.1 hsc
    dsimp only
    split
    · rw [endShot_score]
      exact hsc1
    · exact hsc1

/-- A red-ball game, a black-ball game and an idle wall game for the C8
witness. -/
def gC8r : Game :=
  { width := 1200, height := 800, entities := [mkRedBall (100, 100)],
    entsToAdd := [], holes := [], score := 3, shotsLeft := 30, shot := true,
    ballHitThisShot := false, playing := true, sounds := [], popups := [] }

/-- A black-ball game with score 3: potting deducts to max(3-5, 0) = 0. -/
def gC8b : Game :=
  { width := 1200, height := 800, entities := [mkBlackBall (100, 100)],
    entsToAdd := [], holes := [], score := 3, shotsLeft := 30, shot := true,
    ballHitThisShot := false, playing := true, sounds := [], popups := [] }

/-- A wall-only idle game. -/
def gC8w : Game :=
  { width := 1200, height := 800, entities := [mkWall (0, 0) (100, 10)],
    entsToAdd := [], holes := [], score := 0, shotsLeft := 30, shot := false,
    ballHitThisShot := false, playing := true, sounds := [], popups := [] }

/-- Witness for C8 at concrete games. -/
theorem C8_witness :
    gC8r.score ≤ (potEntity 0 gC8r).score ∧
    (potEntity 0 gC8b).score = max (gC8b.score - 5) 0 ∧
    (0 : ℤ) ≤ gC8w.score := by
  refine ⟨C8_score_never_negative.1 0 gC8r ?_, C8_score_never_negative.2.1 0 gC8b rfl rfl,
    C8_score_never_negative.2.2 ⟨false, (0, 0)⟩ gC8w 1 gC8w (by norm_num [gC8w]) rfl⟩
  rw [show (entAt gC8r 0).kind = .red from rfl]
  decide

end

end Pool
